import Mathlib

/-!
Verification development for the CLO warehouse dashboard's risk, stress
and alert engine (`src/risk_analytics.py`, `src/stress.py`, `src/alerts.py`).

Modelling conventions of the shallow embedding:
* Python strings are embedded as `List Char` (`Str`), so that prefix and
  substring tests can be reasoned about by structural induction.
* Python floats are embedded as exact rationals (`ℚ`).  The code performs
  only field arithmetic and comparisons, which `ℚ` reproduces; binary
  floating-point rounding of literals is outside the model.
* Missing cells (`NaN`/`None`) are `Option`; a whole optional DataFrame
  column is modelled by a presence flag on the frame (`Frame`), mirroring
  the `"col" in df.columns` guards of the source.  `par_amount`,
  `asset_id` and `issuer_name` are required fields of the validated
  `Asset` schema and are embedded as plain values.
* Presentation-only artefacts of the source (formatted `detail` strings,
  `round(x, n)` display rounding of table cells, the md5 truncation of
  alert ids) are elided or kept symbolic where noted in comments; no
  claim depends on them.
-/

/-- Python strings as character lists. -/
abbrev Str := List Char

/-- Helper to write `Str` literals. -/
def chars (s : String) : Str := s.toList

/-- Embeds `str.strip()`: drop leading and trailing whitespace. -/
def trimChars (s : Str) : Str :=
  ((s.dropWhile Char.isWhitespace).reverse.dropWhile Char.isWhitespace).reverse

/-- Embeds `pat in s` for Python strings: `pat` occurs as a contiguous substring. -/
def containsSeq (pat : Str) : Str → Bool
  | [] => pat.isPrefixOf []
  | c :: rest => pat.isPrefixOf (c :: rest) || containsSeq pat rest

/-- Embeds `s.upper()` (ASCII data in this repository). -/
def toUpperStr (s : Str) : Str := s.map Char.toUpper

/-- Lexicographic `<=` on strings by code point, as used by Python string
comparison and hence by `pandas.groupby`'s sorted group keys. -/
def lexLe : Str → Str → Bool
  | [], _ => true
  | _ :: _, [] => false
  | c :: cs, d :: ds => if c < d then true else if d < c then false else lexLe cs ds

-- ── Rating taxonomy (src/stress.py) ───────────────────────────────────

/-- The broad rating tiers returned by `rating_to_tier`. -/
inductive Tier where
  | IG | BB | B | CCC | NR
deriving DecidableEq, Repr

/-- The tier strings, as the Python code uses them for `groupby` keys. -/
def tierStr : Tier → Str
  | .IG => chars "IG"
  | .BB => chars "BB"
  | .B => chars "B"
  | .CCC => chars "CCC"
  | .NR => chars "NR"

/-- Embeds `RATING_ORDER`: the fixed 21-point Moody's ordinal scale. -/
def RATING_ORDER : List (Str × ℕ) :=
  [(chars "Aaa", 1), (chars "Aa1", 2), (chars "Aa2", 3), (chars "Aa3", 4),
   (chars "A1", 5), (chars "A2", 6), (chars "A3", 7),
   (chars "Baa1", 8), (chars "Baa2", 9), (chars "Baa3", 10),
   (chars "Ba1", 11), (chars "Ba2", 12), (chars "Ba3", 13),
   (chars "B1", 14), (chars "B2", 15), (chars "B3", 16),
   (chars "Caa1", 17), (chars "Caa2", 18), (chars "Caa3", 19),
   (chars "Ca", 20), (chars "C", 21)]

/-- Embeds `RATING_ORDER.get(rating, None)`. -/
def lookupOrd (r : Str) : Option ℕ :=
  (RATING_ORDER.find? (fun p => p.1 == r)).map (·.2)

/-- Embeds `ORDER_TO_RATING`: reverse lookup, ordinal to rating string. -/
def ORDER_TO_RATING : List (ℕ × Str) := RATING_ORDER.map (fun p => (p.2, p.1))

/-- Embeds `ORDER_TO_RATING.get(o, default)`. -/
def lookupRatingOfOrder (o : ℕ) : Option Str :=
  (ORDER_TO_RATING.find? (fun p => p.1 == o)).map (·.2)

/-- Ordinal bucket used by `rating_to_tier` after a successful exact lookup. -/
def tierFromOrder (o : ℕ) : Tier :=
  if o ≤ 10 then .IG
  else if o ≤ 13 then .BB
  else if o ≤ 16 then .B
  else if o ≤ 21 then .CCC
  else .NR

/-- The partial-match fallback branch of `rating_to_tier`, exactly as coded
(note the dead `startswith("Baa")` disjunct: it is subsumed by the earlier
`startswith("Ba")` branch). -/
def tierHeur (t : Str) : Tier :=
  if containsSeq (chars "Caa") t || t == chars "Ca" || t == chars "C" then .CCC
  else if (chars "B").isPrefixOf t && !(chars "Ba").isPrefixOf t then .B
  else if (chars "Ba").isPrefixOf t then .BB
  else if (chars "Baa").isPrefixOf t || (chars "A").isPrefixOf t
       || (chars "Aa").isPrefixOf t || t == chars "Aaa" then .IG
  else .NR

/-- Embeds `rating_to_tier`: map a Moody's rating string to a broad tier bucket.
`none` embeds `NaN`; the empty string is falsy in Python (`if not rating`). -/
def rating_to_tier (rating : Option Str) : Tier :=
  match rating with
  | none => .NR
  | some s =>
    if s = [] then .NR
    else
      let t := trimChars s
      match lookupOrd t with
      | some o => tierFromOrder o
      | none => tierHeur t

/-- Embeds `downgrade_one_notch`: the rating one notch below the given rating.
No trimming and no falsiness check in the source. -/
def downgrade_one_notch (rating : Str) : Str :=
  match lookupOrd rating with
  | none => rating
  | some o => if o ≥ 21 then rating else (lookupRatingOfOrder (o + 1)).getD rating

-- Spec-side restatement of claim C4's heuristics, in the claim's order:
-- containing "Caa" or equal to "Ca"/"C" gives CCC; a leading "B" not
-- followed by "a" gives B; a leading "Ba" gives BB; the remaining
-- recognized prefix ("A") gives IG; everything else is NR.

/-- Heuristic fallback as claim C4 words it (for comparison with `tierHeur`). -/
def tierHeurSpec (t : Str) : Tier :=
  if containsSeq (chars "Caa") t || t == chars "Ca" || t == chars "C" then .CCC
  else if (chars "B").isPrefixOf t && !(chars "Ba").isPrefixOf t then .B
  else if (chars "Ba").isPrefixOf t then .BB
  else if (chars "A").isPrefixOf t then .IG
  else .NR

/-- Tier classification as claim C4 words it: exact lookup on the 21-point
scale bucketed by ordinal ranges, then the prefix heuristics, else NR. -/
def tierSpecFun (rating : Option Str) : Tier :=
  match rating with
  | none => .NR
  | some s =>
    if s = [] then .NR
    else
      let t := trimChars s
      match lookupOrd t with
      | some o => tierFromOrder o
      | none => tierHeurSpec t

/-- The 21 canonical rating strings in ordinal order. -/
def ratingScale : List Str := RATING_ORDER.map (·.1)

-- ── Data model: asset snapshot as a frame of rows ─────────────────────

/-- One asset row of a portfolio snapshot.  Dates are embedded as integer
day counts (`maturity_days`, `data_date`); cell-level missing values are
`Option`. -/
structure Row where
  asset_id : Str
  issuer_name : Str
  par_amount : ℚ
  market_price : ℚ
  rating_moodys : Option Str
  lien_type : Option Str
  industry_gics : Option Str
  country : Option Str
  coupon : Option ℚ
  floor : Option ℚ
  idx_name : Option Str
  maturity_days : Option ℤ
  data_date : Option ℤ
  is_defaulted : Bool
deriving DecidableEq, Repr

/-- A DataFrame: rows plus presence flags for the optional columns the
source guards with `"col" in df.columns`. -/
structure Frame where
  rows : List Row
  hasPrice : Bool := true
  hasRating : Bool := true
  hasLien : Bool := true
  hasIndustry : Bool := true
  hasCountry : Bool := true
  hasCoupon : Bool := true
  hasFloor : Bool := true
  hasIndex : Bool := true
  hasMaturity : Bool := true
  hasDataDate : Bool := true
  hasDefaulted : Bool := true
deriving DecidableEq, Repr

/-- Embeds `df["par_amount"].sum()`. -/
def totalPar (rows : List Row) : ℚ := (rows.map (·.par_amount)).sum

/-- Sorted distinct group keys of `df.groupby(key)`; `pandas` drops rows
whose group key is missing and sorts the keys ascending. -/
def groupKeys (rows : List Row) (key : Row → Option Str) : List Str :=
  List.insertionSort (fun a b => lexLe a b = true) ((rows.filterMap key).dedup)

/-- Sum of `par_amount` over one group of `df.groupby(key)`. -/
def groupParSum (rows : List Row) (key : Row → Option Str) (k : Str) : ℚ :=
  ((rows.filter (fun r => key r == some k)).map (·.par_amount)).sum

/-- Stable descending sort of `(key, value)` aggregates by value, as
`Series.sort_values(ascending=False)` / `Series.nlargest` order them.
Rows of equal value keep their incoming (sorted-key) order; `pandas` uses
an unstable quicksort whose tie order is observationally irrelevant to the
claims settled here. -/
def sortByValDesc (l : List (Str × ℚ)) : List (Str × ℚ) :=
  List.insertionSort (fun a b => b.2 ≤ a.2) l

/-- Embeds `(key, par-sum)` aggregate of `df.groupby(key)["par_amount"].sum()`,
in sorted key order. -/
def groupAgg (rows : List Row) (key : Row → Option Str) : List (Str × ℚ) :=
  (groupKeys rows key).map (fun k => (k, groupParSum rows key k))

/-- Embeds `Series.idxmax` semantics: the first entry attaining the maximal value. -/
def maxByVal : List (Str × ℚ) → Option (Str × ℚ)
  | [] => none
  | p :: rest =>
    match maxByVal rest with
    | none => some p
    | some q => if q.2 > p.2 then some q else some p

/-- Embeds `round(x, d)` as round-half-up to `d` decimals.  Python's
float `round` is banker's rounding; the two differ only at exact midpoint
ties, which no claim settled here exercises. -/
def roundQ (d : ℕ) (x : ℚ) : ℚ := (⌊x * 10 ^ d + 1 / 2⌋ : ℚ) / 10 ^ d

-- ── src/risk_analytics.py ─────────────────────────────────────────────

/-- Embeds `MOODY_RATING_FACTORS`. -/
def MOODY_RATING_FACTORS : List (Str × ℚ) :=
  [(chars "Aaa", 1), (chars "Aa1", 10), (chars "Aa2", 20), (chars "Aa3", 40),
   (chars "A1", 70), (chars "A2", 120), (chars "A3", 180),
   (chars "Baa1", 260), (chars "Baa2", 360), (chars "Baa3", 610),
   (chars "Ba1", 940), (chars "Ba2", 1350), (chars "Ba3", 1766),
   (chars "B1", 2220), (chars "B2", 2720), (chars "B3", 3490),
   (chars "Caa1", 4770), (chars "Caa2", 6500), (chars "Caa3", 8070),
   (chars "Ca", 10000), (chars "C", 10000)]

/-- Per-row factor lookup of `compute_warf`:
`MOODY_RATING_FACTORS.get(str(row[rating_col]).strip() if pd.notna(...) else "", 3490)`.
A missing cell yields the empty string, whose lookup fails, hence 3490. -/
def ratingFactorQ (rating : Option Str) : ℚ :=
  match rating with
  | none => 3490
  | some s => ((MOODY_RATING_FACTORS.find? (fun p => p.1 == trimChars s)).map (·.2)).getD 3490

/-- Embeds `compute_warf` (weight column fixed to `par_amount`, rating column to
`rating_moodys`, as at every call site). -/
def compute_warf (f : Frame) : ℚ :=
  if f.rows.isEmpty || !f.hasRating then 0
  else
    let total := totalPar f.rows
    if total ≤ 0 then 0
    else ((f.rows.map (fun r => r.par_amount * ratingFactorQ r.rating_moodys)).sum) / total

/-- Embeds `_DIVERSITY_TABLE`. -/
def DIVERSITY_TABLE : List (ℕ × ℚ) :=
  [(1, 1), (2, 3/2), (3, 2), (4, 233/100), (5, 267/100),
   (6, 3), (7, 13/4), (8, 7/2), (9, 15/4), (10, 4)]

/-- Per-industry diversity units: table lookup for `n <= 10` (default 4.0),
`4.0 + (n-10)*0.2` beyond. -/
def diversityUnits (n : ℕ) : ℚ :=
  if n ≤ 10 then ((DIVERSITY_TABLE.find? (fun p => p.1 == n)).map (·.2)).getD 4
  else 4 + ((n : ℚ) - 10) * (1/5)

/-- Embeds `compute_diversity_score`.  Note: it never consults the weight column;
groups with a positive issuer count contribute regardless of par. -/
def compute_diversity_score (f : Frame) : ℚ :=
  if f.rows.isEmpty || !f.hasIndustry then 0
  else
    roundQ 1 (((groupKeys f.rows (·.industry_gics)).map (fun ind =>
      let n := ((f.rows.filter (fun r => r.industry_gics == some ind)).map
        (·.issuer_name)).dedup.length
      if n = 0 then 0 else diversityUnits n)).sum)

/-- Embeds `compute_hhi` over a string group column with presence flag `hasKey`
(`issuer_name` is a required column, so its flag is `true`). -/
def compute_hhi (rows : List Row) (key : Row → Option Str) (hasKey : Bool) : ℚ :=
  if rows.isEmpty || !hasKey then 0
  else
    let total := totalPar rows
    if total ≤ 0 then 0
    else ((groupKeys rows key).map (fun k => (groupParSum rows key k / total) ^ 2)).sum

/-- Result of `compute_single_name_concentration`.  Table columns:
issuer, par in millions, percent of portfolio, cumulative percent
(display rounding of the source elided). -/
structure SingleNameResult where
  max_single_issuer_pct : ℚ
  max_single_issuer_name : Str
  top_n_table : List (Str × ℚ × ℚ × ℚ)
  top_n_total_pct : ℚ
deriving DecidableEq, Repr

/-- The initial `result` dict of `compute_single_name_concentration`. -/
def singleNameZero : SingleNameResult := ⟨0, [], [], 0⟩

/-- Attach the running cumulative of the percent column. -/
def withCumulative : List (Str × ℚ × ℚ) → ℚ → List (Str × ℚ × ℚ × ℚ)
  | [], _ => []
  | (name, parM, pct) :: rest, acc =>
    (name, parM, pct, acc + pct) :: withCumulative rest (acc + pct)

/-- Embeds `compute_single_name_concentration` (default `top_n = 10`). -/
def compute_single_name_concentration (f : Frame) (top_n : ℕ) : SingleNameResult :=
  if f.rows.isEmpty then singleNameZero
  else
    let total := totalPar f.rows
    if total ≤ 0 then singleNameZero
    else
      let sorted := sortByValDesc (groupAgg f.rows (fun r => some r.issuer_name))
      let top := sorted.take top_n
      { max_single_issuer_pct := match sorted with | [] => 0 | p :: _ => p.2 / total
        max_single_issuer_name := match sorted with | [] => [] | p :: _ => p.1
        top_n_table := withCumulative
          (top.map (fun p => (p.1, p.2 / 1000000, p.2 / total * 100))) 0
        top_n_total_pct := ((top.map (·.2)).sum) / total }

/-- Result of `compute_lien_breakdown` (`1L_pct` renamed `first_lien_pct`,
Lean identifiers cannot begin with a digit).  Table columns: lien type,
par amount, percent of portfolio. -/
structure LienResult where
  first_lien_pct : ℚ
  second_lien_pct : ℚ
  unsecured_pct : ℚ
  other_pct : ℚ
  breakdown_table : List (Str × ℚ × ℚ)
deriving DecidableEq, Repr

/-- The initial `result` dict of `compute_lien_breakdown`. -/
def lienZero : LienResult := ⟨0, 0, 0, 0, []⟩

/-- The three alias vocabularies of `compute_lien_breakdown`. -/
def firstLienAliases : List Str :=
  [chars "1L", chars "FIRST LIEN", chars "1ST LIEN", chars "SENIOR SECURED"]
def secondLienAliases : List Str := [chars "2L", chars "SECOND LIEN", chars "2ND LIEN"]
def unsecuredAliases : List Str := [chars "UNSECURED", chars "SUBORDINATED", chars "MEZZANINE"]

/-- Embeds `compute_lien_breakdown`.  Rows with a missing lien type are dropped by
`groupby` (they appear in no bucket, including "other"). -/
def compute_lien_breakdown (f : Frame) : LienResult :=
  if f.rows.isEmpty || !f.hasLien then lienZero
  else
    let total := totalPar f.rows
    if total ≤ 0 then lienZero
    else
      let agg := groupAgg f.rows (·.lien_type)
      let pick (sel : Str → Bool) : ℚ :=
        ((agg.filter (fun p => sel (toUpperStr (trimChars p.1)))).map (fun p => p.2 / total)).sum
      { first_lien_pct := pick (fun lt => firstLienAliases.contains lt)
        second_lien_pct := pick (fun lt => secondLienAliases.contains lt)
        unsecured_pct := pick (fun lt => unsecuredAliases.contains lt)
        other_pct := pick (fun lt => !(firstLienAliases.contains lt
          || secondLienAliases.contains lt || unsecuredAliases.contains lt))
        breakdown_table := (sortByValDesc agg).map (fun p => (p.1, p.2, p.2 / total * 100)) }

/-- Result of `compute_portfolio_duration`. -/
structure DurationResult where
  weighted_avg_duration : ℚ
  portfolio_dv01 : ℚ
  dv01_per_million : ℚ
deriving DecidableEq, Repr

/-- The initial `result` dict of `compute_portfolio_duration`. -/
def durationZero : DurationResult := ⟨0, 0, 0⟩

/-- Estimated floating-rate duration of one row:
`max(0, (maturity - as_of).days / 365) * 0.9`; `none` for a missing
maturity cell (a NaN that `pandas` sums then skip, embedded as `getD 0`). -/
def estDuration (asOf : ℤ) (r : Row) : Option ℚ :=
  r.maturity_days.map (fun m => max 0 (((m - asOf : ℤ) : ℚ) / 365) * (9/10))

/-- Embeds `compute_portfolio_duration` (as-of date passed explicitly in place of
`datetime.now()`). -/
def compute_portfolio_duration (f : Frame) (asOf : ℤ) : DurationResult :=
  if f.rows.isEmpty || !f.hasMaturity || !f.hasPrice then durationZero
  else
    let total := totalPar f.rows
    if total ≤ 0 then durationZero
    else
      let mv (r : Row) : ℚ := r.par_amount * (r.market_price / 100)
      let wavg := ((f.rows.map (fun r => r.par_amount * ((estDuration asOf r).getD 0))).sum) / total
      let dv01 := (f.rows.map (fun r => mv r * ((estDuration asOf r).getD 0) * (1/10000))).sum
      let totalMv := (f.rows.map mv).sum
      { weighted_avg_duration := roundQ 2 wavg
        portfolio_dv01 := roundQ 0 dv01
        dv01_per_million := if totalMv > 0 then roundQ 0 (dv01 / (totalMv / 1000000)) else 0 }

/-- Result of `compute_coupon_analytics`. -/
structure CouponResult where
  wavg_coupon : ℚ
  wavg_floor : ℚ
  pct_with_floor : ℚ
  index_breakdown : List (Str × ℚ × ℚ)
deriving DecidableEq, Repr

/-- The initial `result` dict of `compute_coupon_analytics`. -/
def couponZero : CouponResult := ⟨0, 0, 0, []⟩

/-- Embeds `compute_coupon_analytics` (`fillna(0)` embedded as `Option.getD 0`). -/
def compute_coupon_analytics (f : Frame) : CouponResult :=
  if f.rows.isEmpty then couponZero
  else
    let total := totalPar f.rows
    if total ≤ 0 then couponZero
    else
      { wavg_coupon :=
          if f.hasCoupon then
            ((f.rows.map (fun r => r.par_amount * (r.coupon.getD 0))).sum) / total
          else 0
        wavg_floor :=
          if f.hasFloor then
            ((f.rows.map (fun r => r.par_amount * (r.floor.getD 0))).sum) / total
          else 0
        pct_with_floor :=
          if f.hasFloor then
            (totalPar (f.rows.filter (fun r => decide (r.floor.getD 0 > 0)))) / total
          else 0
        index_breakdown :=
          if f.hasIndex then
            (sortByValDesc (groupAgg f.rows (·.idx_name))).map
              (fun p => (p.1, p.2, p.2 / total * 100))
          else [] }

/-- Embeds `compute_country_concentration`: table of country, par, percent. -/
def compute_country_concentration (f : Frame) : List (Str × ℚ × ℚ) :=
  if f.rows.isEmpty || !f.hasCountry then []
  else
    let total := totalPar f.rows
    if total ≤ 0 then []
    else (sortByValDesc (groupAgg f.rows (·.country))).map
      (fun p => (p.1, p.2, p.2 / total * 100))

-- ── src/config.py: configuration value objects ────────────────────────

/-- Embeds `StressConfig` with its source defaults. -/
structure StressConfig where
  price_shock_ig : ℚ := 1
  price_shock_bb : ℚ := 3
  price_shock_b : ℚ := 5
  price_shock_ccc : ℚ := 15
  cdr_ig : ℚ := 1/200
  cdr_bb : ℚ := 1/50
  cdr_b : ℚ := 1/20
  cdr_ccc : ℚ := 3/20
  recovery_1l : ℚ := 13/20
  recovery_2l : ℚ := 7/20
  recovery_unsecured : ℚ := 3/20
  spread_shock_ig : ℚ := 50
  spread_shock_bb : ℚ := 100
  spread_shock_b : ℚ := 200
  spread_shock_ccc : ℚ := 500
  migration_rate : ℚ := 1/10
  concentration_top_n : ℕ := 3
deriving DecidableEq, Repr

/-- Embeds `AlertConfig` with its source defaults. -/
structure AlertConfig where
  proximity_margin : ℚ := 1/10
  stale_warning_days : ℤ := 7
  stale_critical_days : ℤ := 14
  warf_warning : ℚ := 3000
  warf_critical : ℚ := 3500
  diversity_warning : ℚ := 40
  utilization_warning : ℚ := 9/10
  disabled_rules : List Str := []
deriving DecidableEq, Repr

/-- Embeds `WarehouseConfig` with its source defaults (the ramp-tracker fields,
unused by the engine, are elided). -/
structure WarehouseConfig where
  max_facility_amount : ℚ := 100000000
  advance_rate : ℚ := 4/5
  oc_trigger_pct : ℚ := 5/4
  min_spread : ℚ := 5/2
  concentration_limit_industry : ℚ := 3/20
  warehouse_type : Str := chars "BSL"
  stress_config : StressConfig := {}
  max_single_name_pct : ℚ := 1/50
  max_second_lien_pct : ℚ := 1/10
  max_unsecured_pct : ℚ := 1/20
  max_ccc_pct : ℚ := 3/40
  alert_config : AlertConfig := {}
deriving DecidableEq, Repr

-- ── src/stress.py: scenarios ──────────────────────────────────────────

/-- The `haircuts` dict of `scenario_price_shock` (and of
`scenario_downgrade_migration`): NR is treated like B. -/
def tierHaircut (cfg : StressConfig) : Tier → ℚ
  | .IG => cfg.price_shock_ig
  | .BB => cfg.price_shock_bb
  | .B => cfg.price_shock_b
  | .CCC => cfg.price_shock_ccc
  | .NR => cfg.price_shock_b

/-- The `cdrs` dict of `scenario_default_stress`. -/
def tierCdr (cfg : StressConfig) : Tier → ℚ
  | .IG => cfg.cdr_ig
  | .BB => cfg.cdr_bb
  | .B => cfg.cdr_b
  | .CCC => cfg.cdr_ccc
  | .NR => cfg.cdr_b

/-- The `spread_shocks` dict of `scenario_spread_widening`. -/
def tierSpreadShock (cfg : StressConfig) : Tier → ℚ
  | .IG => cfg.spread_shock_ig
  | .BB => cfg.spread_shock_bb
  | .B => cfg.spread_shock_b
  | .CCC => cfg.spread_shock_ccc
  | .NR => cfg.spread_shock_b

/-- Embeds `get_recovery_rate`: recovery by lien type, substring match on the
upper-cased trimmed label; missing/empty and unrecognized default to 1L. -/
def get_recovery_rate (lien_type : Option Str) (cfg : StressConfig) : ℚ :=
  match lien_type with
  | none => cfg.recovery_1l
  | some s =>
    if s = [] then cfg.recovery_1l
    else
      let l := toUpperStr (trimChars s)
      if containsSeq (chars "1") l then cfg.recovery_1l
      else if containsSeq (chars "2") l then cfg.recovery_2l
      else if containsSeq (chars "UN") l then cfg.recovery_unsecured
      else cfg.recovery_1l

/-- Embeds `ScenarioResult` (the formatted `detail` string and per-asset display
table are elided; the one asset-level column consumed downstream,
migration's `stressed_tier`, is exposed by `migration_asset_table`). -/
structure ScenarioResult where
  name : Str
  loss_dollars : ℚ
  loss_pct : ℚ
deriving DecidableEq, Repr

/-- Per-row loss of `scenario_price_shock`:
`par*price/100 - par*max(0, price - haircut)/100`. -/
def priceShockRowLoss (cfg : StressConfig) (r : Row) : ℚ :=
  r.par_amount * r.market_price / 100
    - r.par_amount * max 0 (r.market_price - tierHaircut cfg (rating_to_tier r.rating_moodys)) / 100

/-- Embeds `scenario_price_shock`. -/
def scenario_price_shock (rows : List Row) (cfg : StressConfig) : ScenarioResult :=
  let totalLoss := (rows.map (priceShockRowLoss cfg)).sum
  let totalBaseMv := (rows.map (fun r => r.par_amount * r.market_price / 100)).sum
  { name := chars "Price Shock"
    loss_dollars := totalLoss
    loss_pct := if totalBaseMv > 0 then totalLoss / totalBaseMv else 0 }

/-- Per-row loss of `scenario_default_stress`: `par * cdr * (1 - recovery)`. -/
def defaultStressRowLoss (cfg : StressConfig) (r : Row) : ℚ :=
  r.par_amount * tierCdr cfg (rating_to_tier r.rating_moodys)
    * (1 - get_recovery_rate r.lien_type cfg)

/-- Embeds `scenario_default_stress`. -/
def scenario_default_stress (rows : List Row) (cfg : StressConfig) : ScenarioResult :=
  let totalLoss := (rows.map (defaultStressRowLoss cfg)).sum
  let total := totalPar rows
  { name := chars "Default Stress"
    loss_dollars := totalLoss
    loss_pct := if total > 0 then totalLoss / total else 0 }

/-- Per-row loss of `scenario_spread_widening`:
`base_mv * est_duration * spread_shock_bps / 10000`, with the duration
estimated from years to maturity (`3.0` years when the maturity column is
absent) and a missing maturity cell producing a NaN the `pandas` sums
skip (embedded as 0 via `getD`). -/
def spreadRowLoss (cfg : StressConfig) (hasMaturity : Bool) (today : ℤ) (r : Row) : ℚ :=
  let years : Option ℚ :=
    if hasMaturity then r.maturity_days.map (fun m => max 0 (((m - today : ℤ) : ℚ) / 365))
    else some 3
  let baseMv := r.par_amount * r.market_price / 100
  ((years.map (fun y => baseMv * (y * (9/10))
    * tierSpreadShock cfg (rating_to_tier r.rating_moodys) / 10000)).getD 0)

/-- Embeds `scenario_spread_widening` (`datetime.now()` passed as `today`). -/
def scenario_spread_widening (rows : List Row) (cfg : StressConfig)
    (hasMaturity : Bool) (today : ℤ) : ScenarioResult :=
  let totalLoss := (rows.map (spreadRowLoss cfg hasMaturity today)).sum
  let totalBaseMv := (rows.map (fun r => r.par_amount * r.market_price / 100)).sum
  { name := chars "Spread Widening"
    loss_dollars := totalLoss
    loss_pct := if totalBaseMv > 0 then totalLoss / totalBaseMv else 0 }

-- Downgrade migration.  The selection walks `df.groupby("tier")` (keys in
-- sorted order), takes `max(1, int(len(group) * migration_rate))` rows per
-- group by `nlargest(_, "par_amount")` (descending par, earlier rows
-- preferred on ties), and marks them migrated.

/-- Stable descending-by-par sort of index-tagged rows, the order
`DataFrame.nlargest(n, "par_amount")` (keep="first") enumerates. -/
def sortRowsByParDesc (g : List (ℕ × Row)) : List (ℕ × Row) :=
  List.insertionSort (fun a b => b.2.par_amount ≤ a.2.par_amount) g

/-- Python `int()` applied to a rational: truncation toward zero
(`Int` division in Lean truncates toward zero on the reduced fraction). -/
def pyInt (q : ℚ) : ℤ := q.num / (q.den : ℤ)

/-- The migrated group size: `max(1, int(len(g) * migration_rate))`. -/
def nMigrate (groupLen : ℕ) (rate : ℚ) : ℕ :=
  max 1 (Int.toNat (pyInt ((groupLen : ℚ) * rate)))

/-- The sorted tier keys of `df_work.groupby("tier")`. -/
def tierKeys (rows : List Row) : List Tier :=
  List.insertionSort (fun a b => lexLe (tierStr a) (tierStr b) = true)
    ((rows.map (fun r => rating_to_tier r.rating_moodys)).dedup)

/-- The positionally indexed rows of one tier group, in frame order. -/
def tierGroup (rows : List Row) (t : Tier) : List (ℕ × Row) :=
  rows.enum.filter (fun p => rating_to_tier p.2.rating_moodys == t)

/-- Embeds `migrated_indices`: per tier, the indices of the top
`nMigrate` rows by par. -/
def migratedIdx (rows : List Row) (rate : ℚ) : List ℕ :=
  (tierKeys rows).flatMap (fun t =>
    let g := tierGroup rows t
    ((sortRowsByParDesc g).take (nMigrate g.length rate)).map (·.1))

/-- One working row of `scenario_downgrade_migration`. -/
structure MigRow where
  idx : ℕ
  row : Row
  migrated : Bool
  stressed_tier : Tier
deriving DecidableEq, Repr

/-- The working frame of `scenario_downgrade_migration`: each row tagged
with its migration flag and stressed (post-downgrade) tier. -/
def migrationWork (rows : List Row) (cfg : StressConfig) : List MigRow :=
  rows.enum.map (fun p =>
    let mig := (migratedIdx rows cfg.migration_rate).contains p.1
    let stressedRating : Option Str :=
      if mig then p.2.rating_moodys.map downgrade_one_notch else p.2.rating_moodys
    { idx := p.1, row := p.2, migrated := mig,
      stressed_tier := rating_to_tier stressedRating })

/-- Per-row loss of the migration scenario:
`par * incremental_haircut / 100` where the incremental haircut is
`max(0, new_tier_haircut - old_tier_haircut)` for migrated rows, 0
otherwise (the `fillna(0)` on the haircut maps is dead: every tier is a
key of the dict). -/
def migrationRowLoss (cfg : StressConfig) (w : MigRow) : ℚ :=
  let oldH := tierHaircut cfg (rating_to_tier w.row.rating_moodys)
  let newH := tierHaircut cfg w.stressed_tier
  let inc := if w.migrated then max 0 (newH - oldH) else 0
  w.row.par_amount * inc / 100

/-- Embeds `scenario_downgrade_migration`. -/
def scenario_downgrade_migration (rows : List Row) (cfg : StressConfig) : ScenarioResult :=
  let work := migrationWork rows cfg
  let totalLoss := (work.map (migrationRowLoss cfg)).sum
  let total := totalPar rows
  { name := chars "Downgrade Migration"
    loss_dollars := totalLoss
    loss_pct := if total > 0 then totalLoss / total else 0 }

/-- The `asset_level[["asset_id", "stressed_tier"]]` table of the
migration scenario, consumed by `run_all_scenarios`. -/
def migration_asset_table (rows : List Row) (cfg : StressConfig) : List (Str × Tier) :=
  (migrationWork rows cfg).map (fun w => (w.row.asset_id, w.stressed_tier))

/-- The top-N obligor names of `scenario_concentration`:
`df.groupby("issuer_name")["par_amount"].sum().nlargest(top_n)`. -/
def topObligors (rows : List Row) (top_n : ℕ) : List Str :=
  ((sortByValDesc (groupAgg rows (fun r => some r.issuer_name))).take top_n).map (·.1)

/-- Per-row loss of `scenario_concentration`: full default with lien-based
recovery on the top-N obligors' positions, 0 elsewhere. -/
def concentrationRowLoss (cfg : StressConfig) (top : List Str) (r : Row) : ℚ :=
  if top.contains r.issuer_name then
    r.par_amount * (1 - get_recovery_rate r.lien_type cfg)
  else 0

/-- Embeds `scenario_concentration`. -/
def scenario_concentration (rows : List Row) (cfg : StressConfig) : ScenarioResult :=
  let top := topObligors rows cfg.concentration_top_n
  let totalLoss := (rows.map (concentrationRowLoss cfg top)).sum
  let total := totalPar rows
  { name := chars "Concentration"
    loss_dollars := totalLoss
    loss_pct := if total > 0 then totalLoss / total else 0 }

-- ── src/stress.py: aggregation ────────────────────────────────────────

/-- Embeds `StressResults`. -/
structure StressResults where
  warehouse_name : Str
  total_par : ℚ
  base_mv : ℚ
  base_oc : ℚ
  scenarios : List ScenarioResult
  total_stressed_loss : ℚ
  stressed_oc : ℚ
  oc_trigger : ℚ
  oc_breach : Bool
  stressed_ccc_pct : ℚ
  ccc_breach : Bool
deriving DecidableEq, Repr

/-- The debt denominator of `run_all_scenarios`: the given
`debt_outstanding` when positive, else
`total_par * (weighted-average price / 100) * advance_rate` (with the
weighted-average price defaulting to 100 on zero par). -/
def resolvedStressDebt (f : Frame) (wcfg : WarehouseConfig) (debt_outstanding : ℚ) : ℚ :=
  if debt_outstanding ≤ 0 then
    let total := totalPar f.rows
    let wPrice := if total > 0 then
        ((f.rows.map (fun r => r.par_amount * r.market_price)).sum) / total
      else 100
    total * (wPrice / 100) * wcfg.advance_rate
  else debt_outstanding

/-- The final tier of one row in the stressed-CCC computation of
`run_all_scenarios`: the first `stressed_tier` of the migration table
with a matching `asset_id` (the `merge` + `drop_duplicates("asset_id")`),
falling back to the row's own tier. -/
def finalTier (tbl : List (Str × Tier)) (r : Row) : Tier :=
  ((tbl.find? (fun p => p.1 == r.asset_id)).map (·.2)).getD
    (rating_to_tier r.rating_moodys)

/-- The stressed CCC fraction of `run_all_scenarios`, derived from the
migration scenario's asset-level table. -/
def stressedCccPct (f : Frame) (scfg : StressConfig) : ℚ :=
  let total := totalPar f.rows
  let tbl := migration_asset_table f.rows scfg
  if total > 0 then
    (totalPar (f.rows.filter (fun r => finalTier tbl r == Tier.CCC))) / total
  else 0

/-- Embeds `run_all_scenarios` (`datetime.now()` passed as `today`). -/
def run_all_scenarios (f : Frame) (wcfg : WarehouseConfig) (scfg : StressConfig)
    (debt_outstanding cash_balance : ℚ) (today : ℤ) : StressResults :=
  let total := totalPar f.rows
  let baseMv := if f.hasPrice then
      (f.rows.map (fun r => r.par_amount * r.market_price / 100)).sum
    else total
  let debt := resolvedStressDebt f wcfg debt_outstanding
  let s1 := scenario_price_shock f.rows scfg
  let s2 := scenario_default_stress f.rows scfg
  let s3 := scenario_spread_widening f.rows scfg f.hasMaturity today
  let s4 := scenario_downgrade_migration f.rows scfg
  let s5 := scenario_concentration f.rows scfg
  let marketLoss := max s1.loss_dollars s3.loss_dollars
  let creditLoss := s2.loss_dollars
  let tsl := marketLoss + creditLoss
  let ccc := stressedCccPct f scfg
  { warehouse_name := []
    total_par := total
    base_mv := baseMv
    base_oc := if debt > 0 then (total + cash_balance) / debt else 0
    scenarios := [s1, s2, s3, s4, s5]
    total_stressed_loss := tsl
    stressed_oc := if debt > 0 then (total - tsl + cash_balance) / debt else 0
    oc_trigger := wcfg.oc_trigger_pct
    oc_breach := decide ((if debt > 0 then (total - tsl + cash_balance) / debt else 0)
      < wcfg.oc_trigger_pct)
    stressed_ccc_pct := ccc
    ccc_breach := decide (ccc > 3/40) }

-- ── CCC bucket by regex (risk_analytics / alerts) ─────────────────────

/-- The regex test `rating.str.contains("Caa|Ca|^C$", na=False)` shared by
`compute_compliance_status` and `_check_ccc`: `re.search` semantics, so
"Caa" or "Ca" anywhere in the string, or the whole string equal to "C";
a missing rating matches nothing (`na=False`). -/
def cccRegexMatch (rating : Option Str) : Bool :=
  match rating with
  | none => false
  | some s => containsSeq (chars "Caa") s || containsSeq (chars "Ca") s || s == chars "C"

/-- Par of the regex-matched CCC bucket. -/
def cccParRegex (rows : List Row) : ℚ :=
  totalPar (rows.filter (fun r => cccRegexMatch r.rating_moodys))

/-- Par of the tier-classified CCC bucket (`rating_to_tier` = CCC). -/
def cccParTier (rows : List Row) : ℚ :=
  totalPar (rows.filter (fun r => rating_to_tier r.rating_moodys == Tier.CCC))

-- ── src/risk_analytics.py: compute_compliance_status ──────────────────

/-- Result of `compute_compliance_status` (`oc_ratio` renamed
`oc_ratio_val` and `max_single_name_pct` renamed `max_single_name_pct_val`
to keep Lean field names clear of the config fields). -/
structure ComplianceStatus where
  oc_ratio_val : ℚ
  ccc_pct : ℚ
  max_industry_pct : ℚ
  max_industry_name : Str
  max_single_name_pct_val : ℚ
  max_single_name : Str
  second_lien_pct : ℚ
  unsecured_pct : ℚ
  warf : ℚ
  diversity_score : ℚ
  issuer_hhi : ℚ
  industry_hhi : ℚ
deriving DecidableEq, Repr

/-- The initial `result` dict of `compute_compliance_status`. -/
def complianceZero : ComplianceStatus := ⟨0, 0, 0, [], 0, [], 0, 0, 0, 0, 0, 0⟩

/-- Embeds `compute_compliance_status`. -/
def compute_compliance_status (f : Frame) (cfg : WarehouseConfig) : ComplianceStatus :=
  if f.rows.isEmpty then complianceZero
  else
    let funded := totalPar f.rows
    if funded ≤ 0 then complianceZero
    else
      let sn := compute_single_name_concentration f 10
      let lien := compute_lien_breakdown f
      let indMax := if f.hasIndustry then maxByVal (groupAgg f.rows (·.industry_gics)) else none
      { oc_ratio_val :=
          if f.hasPrice then
            let wPrice := ((f.rows.map (fun r => r.par_amount * r.market_price)).sum) / funded
            let estDebt := funded * (wPrice / 100) * cfg.advance_rate
            if estDebt > 0 then funded / estDebt else 0
          else 0
        ccc_pct := if f.hasRating then cccParRegex f.rows / funded else 0
        max_industry_pct := match indMax with | none => 0 | some p => p.2 / funded
        max_industry_name := match indMax with | none => [] | some p => p.1
        max_single_name_pct_val := sn.max_single_issuer_pct
        max_single_name := sn.max_single_issuer_name
        second_lien_pct := lien.second_lien_pct
        unsecured_pct := lien.unsecured_pct
        warf := compute_warf f
        diversity_score := compute_diversity_score f
        issuer_hhi := compute_hhi f.rows (fun r => some r.issuer_name) true
        industry_hhi := if f.hasIndustry then compute_hhi f.rows (·.industry_gics) f.hasIndustry else 0 }

-- ── src/alerts.py ─────────────────────────────────────────────────────

/-- Embeds `AlertSeverity`. -/
inductive AlertSeverity where
  | CRITICAL | WARNING | INFO
deriving DecidableEq, Repr

/-- The `severity_order` dict of `evaluate_all_alerts` (the `.get` default
3 is unreachable: the enum has exactly these three members). -/
def severity_order : AlertSeverity → ℕ
  | .CRITICAL => 0
  | .WARNING => 1
  | .INFO => 2

/-- An `Alert` (the formatted `detail` string and the evaluation timestamp
are elided; `alert_id` keeps the pre-hash content key `warehouse:rule`,
the md5 truncation being presentation-only and injective in intent). -/
structure Alert where
  alert_id : Str
  warehouse : Str
  severity : AlertSeverity
  category : Str
  title : Str
  metric_name : Str
  current_value : ℚ
  threshold_value : ℚ
deriving DecidableEq, Repr

/-- Embeds `_alert_id` (md5 truncation elided, see `Alert`). -/
def alertIdOf (warehouse rule : Str) : Str := warehouse ++ chars ":" ++ rule

/-- Embeds `_is_enabled`. -/
def is_enabled (rule : Str) (ac : AlertConfig) : Bool := !(ac.disabled_rules.contains rule)

/-- The debt denominator of `_check_oc_breach`: the given value when
supplied, else estimated from par, weighted-average price and the advance
rate, `none` when it cannot be estimated (no price column). -/
def resolvedOcDebt (f : Frame) (cfg : WarehouseConfig) (debt_outstanding : Option ℚ) : Option ℚ :=
  match debt_outstanding with
  | some d => some d
  | none =>
    if f.hasPrice then
      let funded := totalPar f.rows
      some (funded * ((((f.rows.map (fun r => r.par_amount * r.market_price)).sum) / funded)
        / 100) * cfg.advance_rate)
    else none

/-- Embeds `_check_oc_breach`. -/
def check_oc_breach (f : Frame) (warehouse : Str) (cfg : WarehouseConfig)
    (debt_outstanding : Option ℚ) (cash_balance : ℚ) : List Alert :=
  let ac := cfg.alert_config
  let funded := totalPar f.rows
  if funded ≤ 0 then []
  else
    match resolvedOcDebt f cfg debt_outstanding with
    | none => []
    | some debt =>
      if debt ≤ 0 then []
      else
        let oc := (funded + cash_balance) / debt
        let trigger := cfg.oc_trigger_pct
        if is_enabled (chars "oc_breach") ac && decide (oc < trigger) then
          [{ alert_id := alertIdOf warehouse (chars "oc_breach"), warehouse := warehouse,
             severity := .CRITICAL, category := chars "Compliance",
             title := chars "OC Ratio Breach", metric_name := chars "oc_ratio",
             current_value := oc, threshold_value := trigger }]
        else if is_enabled (chars "oc_proximity") ac
            && decide (oc < trigger * (1 + ac.proximity_margin)) then
          [{ alert_id := alertIdOf warehouse (chars "oc_proximity"), warehouse := warehouse,
             severity := .WARNING, category := chars "Threshold Proximity",
             title := chars "OC Ratio Near Trigger", metric_name := chars "oc_ratio",
             current_value := oc, threshold_value := trigger }]
        else []

/-- Embeds `_check_ccc`. -/
def check_ccc (f : Frame) (warehouse : Str) (cfg : WarehouseConfig) : List Alert :=
  let ac := cfg.alert_config
  let funded := totalPar f.rows
  if funded ≤ 0 || !f.hasRating then []
  else
    let cccPct := cccParRegex f.rows / funded
    let limit := cfg.max_ccc_pct
    if is_enabled (chars "ccc_breach") ac && decide (cccPct > limit) then
      [{ alert_id := alertIdOf warehouse (chars "ccc_breach"), warehouse := warehouse,
         severity := .CRITICAL, category := chars "Compliance",
         title := chars "CCC Bucket Breach", metric_name := chars "ccc_pct",
         current_value := cccPct, threshold_value := limit }]
    else if is_enabled (chars "ccc_proximity") ac
        && decide (cccPct > limit * (1 - ac.proximity_margin)) then
      [{ alert_id := alertIdOf warehouse (chars "ccc_proximity"), warehouse := warehouse,
         severity := .WARNING, category := chars "Threshold Proximity",
         title := chars "CCC % Near Limit", metric_name := chars "ccc_pct",
         current_value := cccPct, threshold_value := limit }]
    else []

/-- Embeds `_check_industry_concentration`: one alert per offending industry, in
sorted industry order. -/
def check_industry_concentration (f : Frame) (warehouse : Str)
    (cfg : WarehouseConfig) : List Alert :=
  let ac := cfg.alert_config
  let funded := totalPar f.rows
  if funded ≤ 0 || !f.hasIndustry then []
  else
    let limit := cfg.concentration_limit_industry
    (groupAgg f.rows (·.industry_gics)).flatMap (fun p =>
      let pct := p.2 / funded
      if is_enabled (chars "industry_breach") ac && decide (pct > limit) then
        [{ alert_id := alertIdOf warehouse (chars "industry_breach_" ++ p.1),
           warehouse := warehouse, severity := .CRITICAL,
           category := chars "Concentration",
           title := chars "Industry Limit Breach: " ++ p.1,
           metric_name := chars "industry_concentration",
           current_value := pct, threshold_value := limit }]
      else if is_enabled (chars "industry_proximity") ac
          && decide (pct > limit * (1 - ac.proximity_margin)) then
        [{ alert_id := alertIdOf warehouse (chars "industry_prox_" ++ p.1),
           warehouse := warehouse, severity := .WARNING,
           category := chars "Threshold Proximity",
           title := chars "Industry Near Limit: " ++ p.1,
           metric_name := chars "industry_concentration",
           current_value := pct, threshold_value := limit }]
      else [])

/-- Embeds `_check_single_name`. -/
def check_single_name (f : Frame) (warehouse : Str) (cfg : WarehouseConfig) : List Alert :=
  let ac := cfg.alert_config
  let sn := compute_single_name_concentration f 10
  let limit := cfg.max_single_name_pct
  let pct := sn.max_single_issuer_pct
  let name := sn.max_single_issuer_name
  if is_enabled (chars "single_name_breach") ac && decide (pct > limit) then
    [{ alert_id := alertIdOf warehouse (chars "single_name_breach"),
       warehouse := warehouse, severity := .CRITICAL,
       category := chars "Concentration",
       title := chars "Single-Name Breach: " ++ name,
       metric_name := chars "single_name_pct",
       current_value := pct, threshold_value := limit }]
  else if is_enabled (chars "single_name_proximity") ac
      && decide (pct > limit * (1 - ac.proximity_margin)) then
    [{ alert_id := alertIdOf warehouse (chars "single_name_proximity"),
       warehouse := warehouse, severity := .WARNING,
       category := chars "Threshold Proximity",
       title := chars "Single-Name Near Limit: " ++ name,
       metric_name := chars "single_name_pct",
       current_value := pct, threshold_value := limit }]
  else []

/-- Embeds `_check_lien_sublimits`: two independent breach checks, no proximity. -/
def check_lien_sublimits (f : Frame) (warehouse : Str) (cfg : WarehouseConfig) : List Alert :=
  let ac := cfg.alert_config
  let lien := compute_lien_breakdown f
  (if is_enabled (chars "second_lien_breach") ac
      && decide (lien.second_lien_pct > cfg.max_second_lien_pct) then
    [{ alert_id := alertIdOf warehouse (chars "second_lien_breach"),
       warehouse := warehouse, severity := .CRITICAL,
       category := chars "Compliance",
       title := chars "Second Lien Sublimit Breach",
       metric_name := chars "second_lien_pct",
       current_value := lien.second_lien_pct,
       threshold_value := cfg.max_second_lien_pct }]
  else []) ++
  (if is_enabled (chars "unsecured_breach") ac
      && decide (lien.unsecured_pct > cfg.max_unsecured_pct) then
    [{ alert_id := alertIdOf warehouse (chars "unsecured_breach"),
       warehouse := warehouse, severity := .CRITICAL,
       category := chars "Compliance",
       title := chars "Unsecured Sublimit Breach",
       metric_name := chars "unsecured_pct",
       current_value := lien.unsecured_pct,
       threshold_value := cfg.max_unsecured_pct }]
  else [])

/-- Embeds `_check_data_freshness` (`datetime.now()` passed as `now`; when every
`data_date` cell is missing, the NaT maximum fails both comparisons and
no alert fires, embedded as the `none` branch). -/
def check_data_freshness (f : Frame) (warehouse : Str) (cfg : WarehouseConfig)
    (now : ℤ) : List Alert :=
  let ac := cfg.alert_config
  if !f.hasDataDate || f.rows.isEmpty then []
  else
    match (f.rows.filterMap (·.data_date)).max? with
    | none => []
    | some latest =>
      let daysOld := now - latest
      if is_enabled (chars "data_stale") ac && decide (daysOld ≥ ac.stale_critical_days) then
        [{ alert_id := alertIdOf warehouse (chars "data_stale_critical"),
           warehouse := warehouse, severity := .CRITICAL,
           category := chars "Data Quality",
           title := chars "Data Critically Stale",
           metric_name := chars "data_freshness_days",
           current_value := (daysOld : ℚ),
           threshold_value := (ac.stale_critical_days : ℚ) }]
      else if is_enabled (chars "data_stale") ac && decide (daysOld ≥ ac.stale_warning_days) then
        [{ alert_id := alertIdOf warehouse (chars "data_stale_warning"),
           warehouse := warehouse, severity := .WARNING,
           category := chars "Data Quality",
           title := chars "Data Getting Stale",
           metric_name := chars "data_freshness_days",
           current_value := (daysOld : ℚ),
           threshold_value := (ac.stale_warning_days : ℚ) }]
      else []

/-- Embeds `_check_warf`. -/
def check_warf (f : Frame) (warehouse : Str) (cfg : WarehouseConfig) : List Alert :=
  let ac := cfg.alert_config
  let warf := compute_warf f
  if is_enabled (chars "warf_high") ac && decide (warf ≥ ac.warf_critical) then
    [{ alert_id := alertIdOf warehouse (chars "warf_critical"),
       warehouse := warehouse, severity := .CRITICAL,
       category := chars "Risk", title := chars "WARF Critical",
       metric_name := chars "warf",
       current_value := warf, threshold_value := ac.warf_critical }]
  else if is_enabled (chars "warf_high") ac && decide (warf ≥ ac.warf_warning) then
    [{ alert_id := alertIdOf warehouse (chars "warf_warning"),
       warehouse := warehouse, severity := .WARNING,
       category := chars "Risk", title := chars "WARF Elevated",
       metric_name := chars "warf",
       current_value := warf, threshold_value := ac.warf_warning }]
  else []

/-- Embeds `_check_diversity`. -/
def check_diversity (f : Frame) (warehouse : Str) (cfg : WarehouseConfig) : List Alert :=
  let ac := cfg.alert_config
  let score := compute_diversity_score f
  if is_enabled (chars "diversity_low") ac && decide (score < ac.diversity_warning)
      && decide (score > 0) then
    [{ alert_id := alertIdOf warehouse (chars "diversity_low"),
       warehouse := warehouse, severity := .WARNING,
       category := chars "Risk", title := chars "Low Diversity Score",
       metric_name := chars "diversity_score",
       current_value := score, threshold_value := ac.diversity_warning }]
  else []

/-- Render a count into a title fragment. -/
def natChars (n : ℕ) : Str := (toString n).toList

/-- Embeds `_check_defaulted_assets`. -/
def check_defaulted_assets (f : Frame) (warehouse : Str) (cfg : WarehouseConfig) : List Alert :=
  let ac := cfg.alert_config
  if !f.hasDefaulted then []
  else
    let defaulted := f.rows.filter (·.is_defaulted)
    if is_enabled (chars "defaulted_assets") ac && decide (defaulted.length > 0) then
      [{ alert_id := alertIdOf warehouse (chars "defaulted_assets"),
         warehouse := warehouse, severity := .WARNING,
         category := chars "Risk",
         title := natChars defaulted.length ++ chars " Defaulted Asset(s)",
         metric_name := chars "defaulted_count",
         current_value := (defaulted.length : ℚ), threshold_value := 0 }]
    else []

/-- Embeds `_check_price_outliers`. -/
def check_price_outliers (f : Frame) (warehouse : Str) (cfg : WarehouseConfig) : List Alert :=
  let ac := cfg.alert_config
  if !f.hasPrice then []
  else
    let distressed := f.rows.filter (fun r => decide (r.market_price < 70))
    if is_enabled (chars "price_outlier") ac && decide (distressed.length > 0) then
      [{ alert_id := alertIdOf warehouse (chars "price_outlier"),
         warehouse := warehouse, severity := .INFO,
         category := chars "Data Quality",
         title := natChars distressed.length ++ chars " Distressed Price Asset(s)",
         metric_name := chars "price_outlier_count",
         current_value := (distressed.length : ℚ), threshold_value := 70 }]
    else []

/-- Embeds `_check_utilization`. -/
def check_utilization (f : Frame) (warehouse : Str) (cfg : WarehouseConfig)
    (debt_outstanding : Option ℚ) : List Alert :=
  let ac := cfg.alert_config
  let funded := totalPar f.rows
  let debt? : Option ℚ :=
    match debt_outstanding with
    | some d => some d
    | none =>
      if f.hasPrice && decide (funded > 0) then
        some (funded * ((((f.rows.map (fun r => r.par_amount * r.market_price)).sum) / funded)
          / 100) * cfg.advance_rate)
      else none
  match debt? with
  | none => []
  | some debt =>
    if cfg.max_facility_amount ≤ 0 then []
    else
      let utilization := debt / cfg.max_facility_amount
      if is_enabled (chars "facility_utilization_high") ac
          && decide (utilization > ac.utilization_warning) then
        [{ alert_id := alertIdOf warehouse (chars "utilization_high"),
           warehouse := warehouse, severity := .WARNING,
           category := chars "Compliance",
           title := chars "High Facility Utilization",
           metric_name := chars "facility_utilization",
           current_value := utilization, threshold_value := ac.utilization_warning }]
      else []

/-- The concatenation of the eleven rule outputs, in the evaluation order
of `evaluate_all_alerts`. -/
def allRuleAlerts (f : Frame) (warehouse : Str) (cfg : WarehouseConfig)
    (debt_outstanding : Option ℚ) (cash_balance : ℚ) (now : ℤ) : List Alert :=
  check_oc_breach f warehouse cfg debt_outstanding cash_balance
  ++ check_ccc f warehouse cfg
  ++ check_industry_concentration f warehouse cfg
  ++ check_single_name f warehouse cfg
  ++ check_lien_sublimits f warehouse cfg
  ++ check_data_freshness f warehouse cfg now
  ++ check_warf f warehouse cfg
  ++ check_diversity f warehouse cfg
  ++ check_defaulted_assets f warehouse cfg
  ++ check_price_outliers f warehouse cfg
  ++ check_utilization f warehouse cfg debt_outstanding

/-- Embeds `evaluate_all_alerts`: all rule outputs, stably sorted by severity
rank (Python's `list.sort` with a key is a stable sort, embedded as the
stable `List.insertionSort`). -/
def evaluate_all_alerts (f : Frame) (warehouse : Str) (cfg : WarehouseConfig)
    (debt_outstanding : Option ℚ) (cash_balance : ℚ) (now : ℤ) : List Alert :=
  List.insertionSort (fun a b => severity_order a.severity ≤ severity_order b.severity)
    (allRuleAlerts f warehouse cfg debt_outstanding cash_balance now)

-- ── Sample concrete inputs for witnesses and counterexamples ──────────

/-- A single-lien B3 asset used as a concrete test fixture. -/
def sampleRow : Row :=
  { asset_id := chars "A1", issuer_name := chars "ACME", par_amount := 100,
    market_price := 100, rating_moodys := some (chars "B3"),
    lien_type := some (chars "1L"), industry_gics := some (chars "Tech"),
    country := some (chars "US"), coupon := some 5, floor := some 1,
    idx_name := some (chars "SOFR"), maturity_days := some 1095,
    data_date := some 0, is_defaulted := false }

/-- A second fixture: distressed CCC-rated second-lien asset. -/
def sampleRow2 : Row :=
  { asset_id := chars "A2", issuer_name := chars "BETA", par_amount := 50,
    market_price := 90, rating_moodys := some (chars "Caa2"),
    lien_type := some (chars "2L"), industry_gics := some (chars "Energy"),
    country := some (chars "US"), coupon := some 8, floor := none,
    idx_name := some (chars "SOFR"), maturity_days := some 730,
    data_date := some 0, is_defaulted := false }

/-- A two-asset sample frame. -/
def sampleFrame : Frame := { rows := [sampleRow, sampleRow2] }

/-- The empty frame. -/
def emptyFrame : Frame := { rows := [] }

/-- A non-empty frame whose total par is zero. -/
def zeroParFrame : Frame := { rows := [{ sampleRow with par_amount := 0 }] }

/-- A one-asset frame (B3, so one notch down crosses into CCC). -/
def oneB3Frame : Frame := { rows := [sampleRow] }

-- ════════════════════════ Theorems ════════════════════════

-- ── Helper lemmas ─────────────────────────────────────────────────────

theorem prefixOf_mono {p q t : Str} (hpq : p <+: q) (h : q.isPrefixOf t = true) :
    p.isPrefixOf t = true := by
  rw [List.isPrefixOf_iff_prefix] at h ⊢
  exact hpq.trans h

theorem code_ig_cond_eq {t : Str} (h3 : List.isPrefixOf (chars "Ba") t = false) :
    (List.isPrefixOf (chars "Baa") t || List.isPrefixOf (chars "A") t
      || List.isPrefixOf (chars "Aa") t || t == chars "Aaa")
    = List.isPrefixOf (chars "A") t := by
  cases hA : List.isPrefixOf (chars "A") t with
  | true => simp [hA]
  | false =>
    have hBaa : List.isPrefixOf (chars "Baa") t = false := by
      cases hB : List.isPrefixOf (chars "Baa") t with
      | false => rfl
      | true =>
        have := prefixOf_mono (by decide : chars "Ba" <+: chars "Baa") hB
        rw [h3] at this
        exact absurd this (by decide)
    have hAa : List.isPrefixOf (chars "Aa") t = false := by
      cases hB : List.isPrefixOf (chars "Aa") t with
      | false => rfl
      | true =>
        have := prefixOf_mono (by decide : chars "A" <+: chars "Aa") hB
        rw [hA] at this
        exact absurd this (by decide)
    have hAaa : (t == chars "Aaa") = false := by
      cases hB : (t == chars "Aaa") with
      | false => rfl
      | true =>
        have ht : t = chars "Aaa" := by simpa using hB
        subst ht
        exact absurd hA (by decide)
    simp [hBaa, hA, hAa, hAaa]

theorem tierHeur_eq_spec (t : Str) : tierHeur t = tierHeurSpec t := by
  unfold tierHeur tierHeurSpec
  cases hc1 : (containsSeq (chars "Caa") t || t == chars "Ca" || t == chars "C") with
  | true => simp [hc1]
  | false =>
    cases hc2 : (List.isPrefixOf (chars "B") t && !List.isPrefixOf (chars "Ba") t) with
    | true => simp [hc1, hc2]
    | false =>
      cases hc3 : List.isPrefixOf (chars "Ba") t with
      | true => simp [hc1, hc2, hc3]
      | false => simp [hc1, hc2, hc3, code_ig_cond_eq hc3]

/-- Claim C4: `rating_to_tier` maps scale ratings by exact lookup to the
ordinal buckets (1-10 IG, 11-13 BB, 14-16 B, 17-21 CCC) and applies the
prefix heuristics, in the claim's order, to everything else; unrecognized
ratings (including empty and missing) map to NR. -/
theorem rating_to_tier_matches_spec : ∀ r, rating_to_tier r = tierSpecFun r := by
  intro r
  cases r with
  | none => rfl
  | some s =>
    unfold rating_to_tier tierSpecFun
    by_cases hs : s = []
    · simp [hs]
    · simp only [if_neg hs]
      cases h : lookupOrd (trimChars s) with
      | some o => rfl
      | none => exact tierHeur_eq_spec _

/-- Claim C5 fails on the code: `downgrade_one_notch("Ca")` is `"C"`,
not `"Ca"`; the bottom of the scale is only absorbing at `"C"` itself. -/
theorem downgrade_Ca_not_fixed :
    downgrade_one_notch (chars "Ca") = chars "C" ∧ chars "C" ≠ chars "Ca" := by
  constructor
  · rfl
  · decide

/-- Claim C5 as amended: `downgrade_one_notch` maps each of the first 20
scale ratings to the next-worse rating (so `"Ca"` maps to `"C"`), returns
`"C"` (the true bottom, ordinal 21) unchanged, returns every rating not
on the scale unchanged, and is total (no error path). -/
theorem downgrade_one_notch_spec :
    (∀ p ∈ ratingScale.zip ratingScale.tail, downgrade_one_notch p.1 = p.2)
    ∧ downgrade_one_notch (chars "C") = chars "C"
    ∧ ∀ r, lookupOrd r = none → downgrade_one_notch r = r := by
  refine ⟨by decide, by rfl, ?_⟩
  intro r h
  unfold downgrade_one_notch
  rw [h]

theorem downgrade_one_notch_spec_witness :
    downgrade_one_notch (chars "B3") = chars "Caa1"
    ∧ downgrade_one_notch (chars "NR") = chars "NR" :=
  ⟨downgrade_one_notch_spec.1 (chars "B3", chars "Caa1") (by decide),
   downgrade_one_notch_spec.2.2 (chars "NR") (by decide)⟩

theorem rows_ne_nil_of_totalPar_pos {rows : List Row} (h : 0 < totalPar rows) :
    rows.isEmpty = false := by
  cases hr : rows with
  | nil => subst hr; norm_num [totalPar] at h
  | cons a l => rfl

/-- Claim C6: for positive total par (and ratings present), WARF is the
par-weighted average of the per-rating Moody's factors, with any rating
absent from the factor table (including "NR" and missing cells) assigned
the B3 factor 3490. -/
theorem compute_warf_formula (f : Frame) (hr : f.hasRating = true)
    (hpos : 0 < totalPar f.rows) :
    compute_warf f
      = ((f.rows.map (fun r => r.par_amount * ratingFactorQ r.rating_moodys)).sum)
        / totalPar f.rows
    ∧ ratingFactorQ (some (chars "NR")) = 3490
    ∧ ratingFactorQ none = 3490 := by
  refine ⟨?_, by simp +decide [ratingFactorQ, MOODY_RATING_FACTORS, trimChars, chars], rfl⟩
  unfold compute_warf
  rw [rows_ne_nil_of_totalPar_pos hpos, hr]
  simp only [Bool.not_true, Bool.or_false, Bool.false_eq_true, if_false]
  rw [if_neg (not_le.mpr hpos)]

theorem compute_warf_formula_witness :
    compute_warf sampleFrame = (100 * 3490 + 50 * 6500) / 150 := by
  have h := compute_warf_formula sampleFrame (by rfl)
    (by norm_num [sampleFrame, totalPar, sampleRow, sampleRow2])
  rw [h.1]
  simp +decide [sampleFrame, sampleRow, sampleRow2, totalPar, ratingFactorQ,
    MOODY_RATING_FACTORS, trimChars, chars, List.find?, Option.map, Option.getD,
    List.dropWhile]
  norm_num

theorem ccc_regex_agree : ∀ s ∈ ratingScale ++ [chars "NR"],
    cccRegexMatch (some s) = decide (rating_to_tier (some s) = Tier.CCC) := by decide

/-- Claim C10: on the canonical 21-rating alphabet plus "NR", the
substring/regex CCC test of the compliance snapshot and the CCC alert
rule agrees with the tier classification: the compliance `ccc_pct` equals
the par share of `rating_to_tier`-CCC assets, and the regex-filtered par
equals the tier-filtered par. -/
theorem ccc_regex_eq_tier (f : Frame) (cfg : WarehouseConfig) (hr : f.hasRating = true)
    (hpos : 0 < totalPar f.rows)
    (hcanon : ∀ r ∈ f.rows, ∃ s ∈ ratingScale ++ [chars "NR"], r.rating_moodys = some s) :
    (compute_compliance_status f cfg).ccc_pct = cccParTier f.rows / totalPar f.rows
    ∧ cccParRegex f.rows = cccParTier f.rows := by
  have hfilter : f.rows.filter (fun r => cccRegexMatch r.rating_moodys)
      = f.rows.filter (fun r => rating_to_tier r.rating_moodys == Tier.CCC) := by
    apply List.filter_congr
    intro r hrmem
    obtain ⟨s, hmem, hs⟩ := hcanon r hrmem
    rw [hs, ccc_regex_agree s hmem]
    rfl
  have hccc : cccParRegex f.rows = cccParTier f.rows := by
    unfold cccParRegex cccParTier
    rw [hfilter]
  refine ⟨?_, hccc⟩
  unfold compute_compliance_status
  rw [rows_ne_nil_of_totalPar_pos hpos]
  simp only [Bool.false_eq_true, if_false, if_neg (not_le.mpr hpos)]
  rw [hr]
  simp only [if_true]
  rw [hccc]

theorem ccc_regex_eq_tier_witness :
    (compute_compliance_status sampleFrame {}).ccc_pct
      = cccParTier sampleFrame.rows / totalPar sampleFrame.rows :=
  (ccc_regex_eq_tier sampleFrame {} (by rfl)
    (by norm_num [sampleFrame, totalPar, sampleRow, sampleRow2])
    (by decide)).1

/-- Claim C7 fails as stated: `compute_diversity_score` never consults the
weight column, so a non-empty collection of zero total par still yields a
positive diversity score (here 1.0) instead of the zero result. -/
theorem diversity_positive_on_zero_par :
    totalPar zeroParFrame.rows ≤ 0 ∧ compute_diversity_score zeroParFrame ≠ 0 := by
  refine ⟨by norm_num [zeroParFrame, totalPar, sampleRow], ?_⟩
  have h1 : compute_diversity_score zeroParFrame = 1 := by
    simp +decide [compute_diversity_score, zeroParFrame, sampleRow, groupKeys,
      diversityUnits, DIVERSITY_TABLE, List.insertionSort, List.orderedInsert, lexLe, chars,
      List.find?, Option.map, Option.getD, roundQ]
    norm_num
  rw [h1]
  norm_num

/-- Claim C7 as amended: each portfolio-metrics function returns its
zero/empty result on an empty collection, on a collection missing the
optional columns it guards, and — for the weight-consuming functions — on
non-positive total par; every division guard (estimated OC debt, total
market value) likewise yields 0.  `compute_diversity_score` is weight
independent: its zero cases are only the empty collection and the missing
industry column. -/
theorem portfolio_metrics_guards (f : Frame) (asOf : ℤ) (cfg : WarehouseConfig) :
    ((f.rows.isEmpty = true ∨ f.hasRating = false ∨ totalPar f.rows ≤ 0) →
        compute_warf f = 0)
    ∧ ((f.rows.isEmpty = true ∨ f.hasIndustry = false) → compute_diversity_score f = 0)
    ∧ (∀ key hasKey, (f.rows.isEmpty = true ∨ hasKey = false ∨ totalPar f.rows ≤ 0) →
        compute_hhi f.rows key hasKey = 0)
    ∧ (∀ n, (f.rows.isEmpty = true ∨ totalPar f.rows ≤ 0) →
        compute_single_name_concentration f n = singleNameZero)
    ∧ ((f.rows.isEmpty = true ∨ f.hasLien = false ∨ totalPar f.rows ≤ 0) →
        compute_lien_breakdown f = lienZero)
    ∧ ((f.rows.isEmpty = true ∨ f.hasMaturity = false ∨ f.hasPrice = false
          ∨ totalPar f.rows ≤ 0) → compute_portfolio_duration f asOf = durationZero)
    ∧ ((f.rows.isEmpty = true ∨ totalPar f.rows ≤ 0) →
        compute_coupon_analytics f = couponZero)
    ∧ ((f.rows.isEmpty = true ∨ f.hasCountry = false ∨ totalPar f.rows ≤ 0) →
        compute_country_concentration f = [])
    ∧ ((f.rows.isEmpty = true ∨ totalPar f.rows ≤ 0) →
        compute_compliance_status f cfg = complianceZero)
    ∧ ((f.rows.map (fun r => r.par_amount * (r.market_price / 100))).sum ≤ 0 →
        (compute_portfolio_duration f asOf).dv01_per_million = 0)
    ∧ (totalPar f.rows
          * ((((f.rows.map (fun r => r.par_amount * r.market_price)).sum) / totalPar f.rows)
            / 100) * cfg.advance_rate ≤ 0 →
        (compute_compliance_status f cfg).oc_ratio_val = 0) := by
  refine ⟨?_, ?_, ?_, ?_, ?_, ?_, ?_, ?_, ?_, ?_, ?_⟩
  · intro h
    unfold compute_warf
    rcases h with h | h | h
    · simp [h]
    · simp [h]
    · by_cases h1 : (f.rows.isEmpty || !f.hasRating) = true
      · simp [h1]
      · simp only [h1, Bool.false_eq_true, if_false]
        rw [if_pos h]
  · intro h
    unfold compute_diversity_score
    rcases h with h | h
    · simp [h]
    · simp [h]
  · intro key hasKey h
    unfold compute_hhi
    rcases h with h | h | h
    · simp [h]
    · simp [h]
    · by_cases h1 : (f.rows.isEmpty || !hasKey) = true
      · simp [h1]
      · simp only [h1, Bool.false_eq_true, if_false]
        rw [if_pos h]
  · intro n h
    unfold compute_single_name_concentration
    rcases h with h | h
    · simp [h]
    · by_cases h1 : f.rows.isEmpty = true
      · simp [h1]
      · simp only [h1, Bool.false_eq_true, if_false]
        rw [if_pos h]
  · intro h
    unfold compute_lien_breakdown
    rcases h with h | h | h
    · simp [h]
    · simp [h]
    · by_cases h1 : (f.rows.isEmpty || !f.hasLien) = true
      · simp [h1]
      · simp only [h1, Bool.false_eq_true, if_false]
        rw [if_pos h]
  · intro h
    unfold compute_portfolio_duration
    rcases h with h | h | h | h
    · simp [h]
    · simp [h]
    · simp [h]
    · by_cases h1 : (f.rows.isEmpty || !f.hasMaturity || !f.hasPrice) = true
      · simp [h1]
      · simp only [h1, Bool.false_eq_true, if_false]
        rw [if_pos h]
  · intro h
    unfold compute_coupon_analytics
    rcases h with h | h
    · simp [h]
    · by_cases h1 : f.rows.isEmpty = true
      · simp [h1]
      · simp only [h1, Bool.false_eq_true, if_false]
        rw [if_pos h]
  · intro h
    unfold compute_country_concentration
    rcases h with h | h | h
    · simp [h]
    · simp [h]
    · by_cases h1 : (f.rows.isEmpty || !f.hasCountry) = true
      · simp [h1]
      · simp only [h1, Bool.false_eq_true, if_false]
        rw [if_pos h]
  · intro h
    unfold compute_compliance_status
    rcases h with h | h
    · simp [h]
    · by_cases h1 : f.rows.isEmpty = true
      · simp [h1]
      · simp only [h1, Bool.false_eq_true, if_false]
        rw [if_pos h]
  · intro h
    unfold compute_portfolio_duration
    by_cases h1 : (f.rows.isEmpty || !f.hasMaturity || !f.hasPrice) = true
    · simp [h1, durationZero]
    · simp only [h1, Bool.false_eq_true, if_false]
      by_cases h2 : totalPar f.rows ≤ 0
      · rw [if_pos h2]
        rfl
      · rw [if_neg h2]
        simp only
        rw [if_neg (not_lt.mpr h)]
  · intro h
    unfold compute_compliance_status
    by_cases h1 : f.rows.isEmpty = true
    · simp [h1, complianceZero]
    · simp only [h1, Bool.false_eq_true, if_false]
      by_cases h2 : totalPar f.rows ≤ 0
      · rw [if_pos h2]
        rfl
      · rw [if_neg h2]
        simp only
        by_cases h3 : f.hasPrice = true
        · rw [if_pos h3, if_neg (not_lt.mpr h)]
        · rw [if_neg h3]

theorem portfolio_metrics_guards_witness :
    compute_warf emptyFrame = 0 ∧ compute_coupon_analytics zeroParFrame = couponZero :=
  ⟨(portfolio_metrics_guards emptyFrame 0 {}).1 (Or.inl rfl),
   (portfolio_metrics_guards zeroParFrame 0 {}).2.2.2.2.2.2.1
     (Or.inr (by norm_num [zeroParFrame, totalPar, sampleRow]))⟩

/-- Claim C2: with positive funded par, a positive (given or estimated)
debt denominator and the OC rules enabled, the OC rule emits exactly one
CRITICAL breach alert when OC < trigger, otherwise exactly one WARNING
proximity alert when OC < trigger*(1+margin), otherwise nothing; the
comparisons are strict, breach is checked first, and the two are mutually
exclusive. -/
theorem check_oc_breach_spec (f : Frame) (w : Str) (cfg : WarehouseConfig)
    (debt? : Option ℚ) (cash debt : ℚ)
    (hfund : 0 < totalPar f.rows)
    (hdebt : resolvedOcDebt f cfg debt? = some debt)
    (hdpos : 0 < debt)
    (hb : is_enabled (chars "oc_breach") cfg.alert_config = true)
    (hp : is_enabled (chars "oc_proximity") cfg.alert_config = true) :
    ((totalPar f.rows + cash) / debt < cfg.oc_trigger_pct →
      check_oc_breach f w cfg debt? cash
        = [{ alert_id := alertIdOf w (chars "oc_breach"), warehouse := w,
             severity := .CRITICAL, category := chars "Compliance",
             title := chars "OC Ratio Breach", metric_name := chars "oc_ratio",
             current_value := (totalPar f.rows + cash) / debt,
             threshold_value := cfg.oc_trigger_pct }])
    ∧ (cfg.oc_trigger_pct ≤ (totalPar f.rows + cash) / debt →
       (totalPar f.rows + cash) / debt
          < cfg.oc_trigger_pct * (1 + cfg.alert_config.proximity_margin) →
      check_oc_breach f w cfg debt? cash
        = [{ alert_id := alertIdOf w (chars "oc_proximity"), warehouse := w,
             severity := .WARNING, category := chars "Threshold Proximity",
             title := chars "OC Ratio Near Trigger", metric_name := chars "oc_ratio",
             current_value := (totalPar f.rows + cash) / debt,
             threshold_value := cfg.oc_trigger_pct }])
    ∧ (cfg.oc_trigger_pct ≤ (totalPar f.rows + cash) / debt →
       cfg.oc_trigger_pct * (1 + cfg.alert_config.proximity_margin)
          ≤ (totalPar f.rows + cash) / debt →
      check_oc_breach f w cfg debt? cash = []) := by
  have hbase : check_oc_breach f w cfg debt? cash
      = (if is_enabled (chars "oc_breach") cfg.alert_config
            && decide ((totalPar f.rows + cash) / debt < cfg.oc_trigger_pct) then
          [{ alert_id := alertIdOf w (chars "oc_breach"), warehouse := w,
             severity := .CRITICAL, category := chars "Compliance",
             title := chars "OC Ratio Breach", metric_name := chars "oc_ratio",
             current_value := (totalPar f.rows + cash) / debt,
             threshold_value := cfg.oc_trigger_pct }]
        else if is_enabled (chars "oc_proximity") cfg.alert_config
            && decide ((totalPar f.rows + cash) / debt
              < cfg.oc_trigger_pct * (1 + cfg.alert_config.proximity_margin)) then
          [{ alert_id := alertIdOf w (chars "oc_proximity"), warehouse := w,
             severity := .WARNING, category := chars "Threshold Proximity",
             title := chars "OC Ratio Near Trigger", metric_name := chars "oc_ratio",
             current_value := (totalPar f.rows + cash) / debt,
             threshold_value := cfg.oc_trigger_pct }]
        else []) := by
    unfold check_oc_breach
    rw [hdebt]
    simp only [if_neg (not_le.mpr hfund), if_neg (not_le.mpr hdpos)]
  refine ⟨?_, ?_, ?_⟩
  · intro h1
    rw [hbase, hb]
    rw [decide_eq_true h1]
    rfl
  · intro h1 h2
    rw [hbase, hb, hp]
    rw [decide_eq_false (not_lt.mpr h1), decide_eq_true h2]
    rfl
  · intro h0 h1
    rw [hbase, hb, hp]
    rw [decide_eq_false (not_lt.mpr h0), decide_eq_false (not_lt.mpr h1)]
    rfl

theorem check_oc_breach_spec_witness :
    check_oc_breach oneB3Frame (chars "W") {} (some 100) 24
      = [{ alert_id := alertIdOf (chars "W") (chars "oc_breach"), warehouse := chars "W",
           severity := .CRITICAL, category := chars "Compliance",
           title := chars "OC Ratio Breach", metric_name := chars "oc_ratio",
           current_value := (totalPar oneB3Frame.rows + 24) / 100,
           threshold_value := WarehouseConfig.oc_trigger_pct {} }]
    ∧ check_oc_breach oneB3Frame (chars "W") {} (some 100) (75/2) = [] := by
  constructor
  · exact (check_oc_breach_spec oneB3Frame (chars "W") {} (some 100) 24 100
      (by norm_num [oneB3Frame, totalPar, sampleRow]) (by rfl) (by norm_num)
      (by rfl) (by rfl)).1
      (by norm_num [oneB3Frame, totalPar, sampleRow])
  · exact (check_oc_breach_spec oneB3Frame (chars "W") {} (some 100) (75/2) 100
      (by norm_num [oneB3Frame, totalPar, sampleRow]) (by rfl) (by norm_num)
      (by rfl) (by rfl)).2.2
      (by norm_num [oneB3Frame, totalPar, sampleRow])
      (by norm_num [oneB3Frame, totalPar, sampleRow])

theorem tierHaircut_nonneg {cfg : StressConfig} (h1 : 0 ≤ cfg.price_shock_ig)
    (h2 : 0 ≤ cfg.price_shock_bb) (h3 : 0 ≤ cfg.price_shock_b)
    (h4 : 0 ≤ cfg.price_shock_ccc) : ∀ t, 0 ≤ tierHaircut cfg t := by
  intro t; cases t <;> assumption

theorem tierCdr_nonneg {cfg : StressConfig} (h1 : 0 ≤ cfg.cdr_ig)
    (h2 : 0 ≤ cfg.cdr_bb) (h3 : 0 ≤ cfg.cdr_b) (h4 : 0 ≤ cfg.cdr_ccc) :
    ∀ t, 0 ≤ tierCdr cfg t := by
  intro t; cases t <;> assumption

theorem tierSpreadShock_nonneg {cfg : StressConfig} (h1 : 0 ≤ cfg.spread_shock_ig)
    (h2 : 0 ≤ cfg.spread_shock_bb) (h3 : 0 ≤ cfg.spread_shock_b)
    (h4 : 0 ≤ cfg.spread_shock_ccc) : ∀ t, 0 ≤ tierSpreadShock cfg t := by
  intro t; cases t <;> assumption

theorem recovery_bounds {cfg : StressConfig}
    (h1 : 0 ≤ cfg.recovery_1l) (h1' : cfg.recovery_1l ≤ 1)
    (h2 : 0 ≤ cfg.recovery_2l) (h2' : cfg.recovery_2l ≤ 1)
    (h3 : 0 ≤ cfg.recovery_unsecured) (h3' : cfg.recovery_unsecured ≤ 1) :
    ∀ lien, 0 ≤ get_recovery_rate lien cfg ∧ get_recovery_rate lien cfg ≤ 1 := by
  intro lien
  unfold get_recovery_rate
  cases lien with
  | none => exact ⟨h1, h1'⟩
  | some s =>
    dsimp only
    split_ifs <;> constructor <;> assumption

theorem priceShockRowLoss_nonneg {cfg : StressConfig} {r : Row}
    (hpar : 0 ≤ r.par_amount) (hpr : 0 ≤ r.market_price)
    (hh : 0 ≤ tierHaircut cfg (rating_to_tier r.rating_moodys)) :
    0 ≤ priceShockRowLoss cfg r := by
  unfold priceShockRowLoss
  have hm : max 0 (r.market_price - tierHaircut cfg (rating_to_tier r.rating_moodys))
      ≤ r.market_price := max_le hpr (by linarith)
  have := mul_le_mul_of_nonneg_left hm hpar
  have := div_le_div_of_nonneg_right this (by norm_num : (0:ℚ) ≤ 100)
  linarith

theorem priceShockRowLoss_mono {cfg cfg2 : StressConfig} {r : Row}
    (hpar : 0 ≤ r.par_amount)
    (hle : tierHaircut cfg (rating_to_tier r.rating_moodys)
      ≤ tierHaircut cfg2 (rating_to_tier r.rating_moodys)) :
    priceShockRowLoss cfg r ≤ priceShockRowLoss cfg2 r := by
  unfold priceShockRowLoss
  have hm : max 0 (r.market_price - tierHaircut cfg2 (rating_to_tier r.rating_moodys))
      ≤ max 0 (r.market_price - tierHaircut cfg (rating_to_tier r.rating_moodys)) :=
    max_le_max le_rfl (by linarith)
  have := mul_le_mul_of_nonneg_left hm hpar
  have := div_le_div_of_nonneg_right this (by norm_num : (0:ℚ) ≤ 100)
  linarith

theorem spreadRowLoss_nonneg {cfg : StressConfig} {hasMat : Bool} {today : ℤ} {r : Row}
    (hpar : 0 ≤ r.par_amount) (hpr : 0 ≤ r.market_price)
    (hs : 0 ≤ tierSpreadShock cfg (rating_to_tier r.rating_moodys)) :
    0 ≤ spreadRowLoss cfg hasMat today r := by
  unfold spreadRowLoss
  have hmv : 0 ≤ r.par_amount * r.market_price / 100 :=
    div_nonneg (mul_nonneg hpar hpr) (by norm_num)
  have key : ∀ y : ℚ, 0 ≤ y →
      0 ≤ r.par_amount * r.market_price / 100 * (y * (9/10))
        * tierSpreadShock cfg (rating_to_tier r.rating_moodys) / 10000 := by
    intro y hy
    apply div_nonneg _ (by norm_num)
    exact mul_nonneg (mul_nonneg hmv (by linarith)) hs
  cases hasMat with
  | false => simpa using key 3 (by norm_num)
  | true =>
    cases hmd : r.maturity_days with
    | none => simp [hmd]
    | some m => simpa [hmd] using key _ (le_max_left 0 _)

theorem defaultStressRowLoss_nonneg {cfg : StressConfig} {r : Row}
    (hpar : 0 ≤ r.par_amount)
    (hc : 0 ≤ tierCdr cfg (rating_to_tier r.rating_moodys))
    (hrec : get_recovery_rate r.lien_type cfg ≤ 1) :
    0 ≤ defaultStressRowLoss cfg r := by
  unfold defaultStressRowLoss
  exact mul_nonneg (mul_nonneg hpar hc) (by linarith)

theorem migrationRowLoss_nonneg {cfg : StressConfig} {w : MigRow}
    (hpar : 0 ≤ w.row.par_amount) : 0 ≤ migrationRowLoss cfg w := by
  unfold migrationRowLoss
  apply div_nonneg _ (by norm_num)
  apply mul_nonneg hpar
  split_ifs
  · exact le_max_left 0 _
  · exact le_rfl

theorem concentrationRowLoss_nonneg {cfg : StressConfig} {top : List Str} {r : Row}
    (hpar : 0 ≤ r.par_amount) (hrec : get_recovery_rate r.lien_type cfg ≤ 1) :
    0 ≤ concentrationRowLoss cfg top r := by
  unfold concentrationRowLoss
  split_ifs
  · exact mul_nonneg hpar (by linarith)
  · exact le_rfl

theorem mem_rows_of_mem_migrationWork {rows : List Row} {cfg : StressConfig} {w : MigRow}
    (hw : w ∈ migrationWork rows cfg) : w.row ∈ rows := by
  unfold migrationWork at hw
  rw [List.mem_map] at hw
  obtain ⟨p, hp, rfl⟩ := hw
  have : p.2 ∈ rows.enum.map Prod.snd := List.mem_map_of_mem Prod.snd hp
  rwa [List.enum_map_snd] at this

/-- Claim C8: with non-negative par and prices, non-negative haircuts,
CDRs and spread shocks, and recovery rates in [0,1], each of the five
stress scenarios produces a non-negative dollar loss, and the Price Shock
loss is monotone non-decreasing in the per-tier haircut parameters. -/
theorem scenario_losses_nonneg_and_mono (rows : List Row) (cfg cfg2 : StressConfig)
    (hasMat : Bool) (today : ℤ)
    (hpar : ∀ r ∈ rows, 0 ≤ r.par_amount)
    (hprice : ∀ r ∈ rows, 0 ≤ r.market_price)
    (h1 : 0 ≤ cfg.price_shock_ig) (h2 : 0 ≤ cfg.price_shock_bb)
    (h3 : 0 ≤ cfg.price_shock_b) (h4 : 0 ≤ cfg.price_shock_ccc)
    (h5 : 0 ≤ cfg.cdr_ig) (h6 : 0 ≤ cfg.cdr_bb) (h7 : 0 ≤ cfg.cdr_b) (h8 : 0 ≤ cfg.cdr_ccc)
    (h9 : 0 ≤ cfg.spread_shock_ig) (h10 : 0 ≤ cfg.spread_shock_bb)
    (h11 : 0 ≤ cfg.spread_shock_b) (h12 : 0 ≤ cfg.spread_shock_ccc)
    (h13 : 0 ≤ cfg.recovery_1l) (h14 : cfg.recovery_1l ≤ 1)
    (h15 : 0 ≤ cfg.recovery_2l) (h16 : cfg.recovery_2l ≤ 1)
    (h17 : 0 ≤ cfg.recovery_unsecured) (h18 : cfg.recovery_unsecured ≤ 1)
    (hm1 : cfg.price_shock_ig ≤ cfg2.price_shock_ig)
    (hm2 : cfg.price_shock_bb ≤ cfg2.price_shock_bb)
    (hm3 : cfg.price_shock_b ≤ cfg2.price_shock_b)
    (hm4 : cfg.price_shock_ccc ≤ cfg2.price_shock_ccc) :
    0 ≤ (scenario_price_shock rows cfg).loss_dollars
    ∧ 0 ≤ (scenario_default_stress rows cfg).loss_dollars
    ∧ 0 ≤ (scenario_spread_widening rows cfg hasMat today).loss_dollars
    ∧ 0 ≤ (scenario_downgrade_migration rows cfg).loss_dollars
    ∧ 0 ≤ (scenario_concentration rows cfg).loss_dollars
    ∧ (scenario_price_shock rows cfg).loss_dollars
        ≤ (scenario_price_shock rows cfg2).loss_dollars := by
  have hhc := tierHaircut_nonneg h1 h2 h3 h4
  have hcdr := tierCdr_nonneg h5 h6 h7 h8
  have hss := tierSpreadShock_nonneg h9 h10 h11 h12
  have hrec := recovery_bounds h13 h14 h15 h16 h17 h18
  refine ⟨?_, ?_, ?_, ?_, ?_, ?_⟩
  · apply List.sum_nonneg
    intro x hx
    rw [List.mem_map] at hx
    obtain ⟨r, hr, rfl⟩ := hx
    exact priceShockRowLoss_nonneg (hpar r hr) (hprice r hr) (hhc _)
  · apply List.sum_nonneg
    intro x hx
    rw [List.mem_map] at hx
    obtain ⟨r, hr, rfl⟩ := hx
    exact defaultStressRowLoss_nonneg (hpar r hr) (hcdr _) (hrec _).2
  · apply List.sum_nonneg
    intro x hx
    rw [List.mem_map] at hx
    obtain ⟨r, hr, rfl⟩ := hx
    exact spreadRowLoss_nonneg (hpar r hr) (hprice r hr) (hss _)
  · apply List.sum_nonneg
    intro x hx
    rw [List.mem_map] at hx
    obtain ⟨w, hw, rfl⟩ := hx
    exact migrationRowLoss_nonneg (hpar _ (mem_rows_of_mem_migrationWork hw))
  · apply List.sum_nonneg
    intro x hx
    rw [List.mem_map] at hx
    obtain ⟨r, hr, rfl⟩ := hx
    exact concentrationRowLoss_nonneg (hpar r hr) (hrec _).2
  · apply List.sum_le_sum
    intro r hr
    apply priceShockRowLoss_mono (hpar r hr)
    cases rating_to_tier r.rating_moodys <;> simp [tierHaircut] <;> assumption

theorem scenario_losses_nonneg_and_mono_witness :
    0 ≤ (scenario_price_shock sampleFrame.rows {}).loss_dollars
    ∧ (scenario_price_shock sampleFrame.rows {}).loss_dollars
        ≤ (scenario_price_shock sampleFrame.rows { price_shock_ccc := 20 }).loss_dollars := by
  have hmem : ∀ r ∈ sampleFrame.rows, 0 ≤ r.par_amount ∧ 0 ≤ r.market_price := by
    intro r hr
    simp [sampleFrame] at hr
    rcases hr with rfl | rfl <;> norm_num [sampleRow, sampleRow2]
  have h := scenario_losses_nonneg_and_mono sampleFrame.rows {} { price_shock_ccc := 20 }
    true 0 (fun r hr => (hmem r hr).1) (fun r hr => (hmem r hr).2)
    (by norm_num) (by norm_num) (by norm_num) (by norm_num)
    (by norm_num) (by norm_num) (by norm_num) (by norm_num)
    (by norm_num) (by norm_num) (by norm_num) (by norm_num)
    (by norm_num) (by norm_num) (by norm_num) (by norm_num)
    (by norm_num) (by norm_num)
    (by norm_num) (by norm_num) (by norm_num) (by norm_num)
  exact ⟨h.1, h.2.2.2.2.2⟩

theorem filter_orderedInsert_of_pos {α : Type} (r : α → α → Prop) [DecidableRel r]
    (p : α → Bool) (a : α) (l : List α) (ha : p a = true)
    (hall : ∀ b, p b = true → r a b) :
    (List.orderedInsert r a l).filter p = a :: l.filter p := by
  induction l with
  | nil => simp [List.orderedInsert, ha]
  | cons b l ih =>
    by_cases hr : r a b
    · simp [List.orderedInsert, if_pos hr, ha]
    · have hpb : p b = false := by
        cases hpb : p b with
        | false => rfl
        | true => exact absurd (hall b hpb) hr
      simp [List.orderedInsert, if_neg hr, hpb, ih]

theorem filter_orderedInsert_of_neg {α : Type} (r : α → α → Prop) [DecidableRel r]
    (p : α → Bool) (a : α) (l : List α) (ha : p a = false) :
    (List.orderedInsert r a l).filter p = l.filter p := by
  induction l with
  | nil => simp [List.orderedInsert, ha]
  | cons b l ih =>
    by_cases hr : r a b
    · simp [List.orderedInsert, if_pos hr, ha]
    · cases hpb : p b with
      | false => simp [List.orderedInsert, if_neg hr, hpb, ih]
      | true => simp [List.orderedInsert, if_neg hr, hpb, ih]

theorem filter_insertionSort {α : Type} (r : α → α → Prop) [DecidableRel r]
    (p : α → Bool) (l : List α)
    (hequiv : ∀ a b, p a = true → p b = true → r a b) :
    (List.insertionSort r l).filter p = l.filter p := by
  induction l with
  | nil => rfl
  | cons a l ih =>
    simp only [List.insertionSort]
    cases hpa : p a with
    | false =>
      rw [filter_orderedInsert_of_neg r p a _ hpa, ih]
      simp [hpa]
    | true =>
      rw [filter_orderedInsert_of_pos r p a _ hpa (fun b hb => hequiv a b hpa hb), ih]
      simp [hpa]

/-- Claim C9: `evaluate_all_alerts` returns a permutation of the
concatenation of the eleven rule outputs, pairwise ordered by severity
rank (CRITICAL before WARNING before INFO), and the sort is stable:
within each severity the alerts keep the order they had in the rule
evaluation concatenation. -/
theorem evaluate_all_alerts_sorted_stable (f : Frame) (w : Str) (cfg : WarehouseConfig)
    (debt? : Option ℚ) (cash : ℚ) (now : ℤ) :
    (evaluate_all_alerts f w cfg debt? cash now).Perm
        (allRuleAlerts f w cfg debt? cash now)
    ∧ (evaluate_all_alerts f w cfg debt? cash now).Pairwise
        (fun a b => severity_order a.severity ≤ severity_order b.severity)
    ∧ ∀ s, (evaluate_all_alerts f w cfg debt? cash now).filter
          (fun a => a.severity == s)
        = (allRuleAlerts f w cfg debt? cash now).filter (fun a => a.severity == s) := by
  haveI : IsTotal Alert (fun a b => severity_order a.severity ≤ severity_order b.severity) :=
    ⟨fun a b => Nat.le_total _ _⟩
  haveI : IsTrans Alert (fun a b => severity_order a.severity ≤ severity_order b.severity) :=
    ⟨fun _ _ _ hab hbc => le_trans hab hbc⟩
  refine ⟨List.perm_insertionSort _ _, List.sorted_insertionSort _ _, ?_⟩
  intro s
  apply filter_insertionSort
  intro a b ha hb
  have ha' : a.severity = s := by simpa using ha
  have hb' : b.severity = s := by simpa using hb
  rw [ha', hb']

/-- Claim C1: with positive total par and a positive (given or estimated)
debt denominator, `run_all_scenarios` sets the total stressed loss to
`max(price shock, spread widening) + default stress` (migration and
concentration are not added), sets the stressed OC to
`(par - total loss + cash) / debt` with the debt estimated as
`par * (weighted price / 100) * advance_rate` when the supplied debt is
non-positive, reports an OC breach iff stressed OC < the warehouse OC
trigger, and reports a CCC breach iff the migration-derived stressed CCC
fraction exceeds the fixed 7.5 percent threshold, for every value of the
warehouse's configured `max_ccc_pct`. -/
theorem run_all_scenarios_aggregation (f : Frame) (wcfg : WarehouseConfig)
    (scfg : StressConfig) (debt cash : ℚ) (today : ℤ)
    (hpar : 0 < totalPar f.rows)
    (hdebt : 0 < resolvedStressDebt f wcfg debt) :
    (run_all_scenarios f wcfg scfg debt cash today).total_stressed_loss
        = max (scenario_price_shock f.rows scfg).loss_dollars
            (scenario_spread_widening f.rows scfg f.hasMaturity today).loss_dollars
          + (scenario_default_stress f.rows scfg).loss_dollars
    ∧ (run_all_scenarios f wcfg scfg debt cash today).stressed_oc
        = (totalPar f.rows
            - (run_all_scenarios f wcfg scfg debt cash today).total_stressed_loss + cash)
          / resolvedStressDebt f wcfg debt
    ∧ (debt ≤ 0 → resolvedStressDebt f wcfg debt
        = totalPar f.rows
          * ((((f.rows.map (fun r => r.par_amount * r.market_price)).sum)
              / totalPar f.rows) / 100)
          * wcfg.advance_rate)
    ∧ ((run_all_scenarios f wcfg scfg debt cash today).oc_breach = true
        ↔ (run_all_scenarios f wcfg scfg debt cash today).stressed_oc
            < wcfg.oc_trigger_pct)
    ∧ (run_all_scenarios f wcfg scfg debt cash today).stressed_ccc_pct
        = stressedCccPct f scfg
    ∧ ((run_all_scenarios f wcfg scfg debt cash today).ccc_breach = true
        ↔ (run_all_scenarios f wcfg scfg debt cash today).stressed_ccc_pct > 3/40)
    ∧ (∀ q, (run_all_scenarios f { wcfg with max_ccc_pct := q } scfg debt cash today).ccc_breach
        = (run_all_scenarios f wcfg scfg debt cash today).ccc_breach) := by
  refine ⟨rfl, ?_, ?_, ?_, rfl, ?_, fun q => rfl⟩
  · simp only [run_all_scenarios]
    rw [if_pos hdebt]
  · intro hq
    unfold resolvedStressDebt
    rw [if_pos hq]
    simp only [if_pos hpar]
  · simp only [run_all_scenarios]
    exact decide_eq_true_iff
  · simp only [run_all_scenarios]
    exact decide_eq_true_iff

theorem run_all_scenarios_aggregation_witness :
    (run_all_scenarios sampleFrame {} {} 80 0 0).total_stressed_loss
      = max (scenario_price_shock sampleFrame.rows {}).loss_dollars
          (scenario_spread_widening sampleFrame.rows {} sampleFrame.hasMaturity 0).loss_dollars
        + (scenario_default_stress sampleFrame.rows {}).loss_dollars :=
  (run_all_scenarios_aggregation sampleFrame {} {} 80 0 0
    (by norm_num [sampleFrame, totalPar, sampleRow, sampleRow2])
    (by norm_num [resolvedStressDebt])).1

/-- Claim C3 fails as stated: at `migration_rate = 0` the per-tier count
`max(1, int(len * rate))` still selects one asset per non-empty tier, so
a single-B3-asset portfolio migrates its only asset (index 0) and books a
loss of 10 on par 100 (haircut 15 - 5), where the claim requires no
migration and zero loss. -/
theorem migration_rate_zero_still_migrates :
    migratedIdx oneB3Frame.rows 0 = [0]
    ∧ (scenario_downgrade_migration oneB3Frame.rows
        { migration_rate := 0 }).loss_dollars = 10 := by
  constructor
  · simp +decide [migratedIdx, oneB3Frame, sampleRow, tierKeys, tierGroup, sortRowsByParDesc,
      nMigrate, pyInt, rating_to_tier, tierHeur, trimChars, lookupOrd, RATING_ORDER, chars,
      List.insertionSort, List.orderedInsert, tierStr, lexLe, List.enum, List.enumFrom,
      List.find?, Option.map, Option.getD]
  · simp +decide [scenario_downgrade_migration, migrationWork, migratedIdx, tierKeys,
      tierGroup, sortRowsByParDesc, nMigrate, pyInt, migrationRowLoss, rating_to_tier,
      tierHeur, trimChars, lookupOrd, RATING_ORDER, chars, totalPar, tierHaircut,
      downgrade_one_notch, oneB3Frame, sampleRow, List.insertionSort, List.orderedInsert,
      tierStr, lexLe, ORDER_TO_RATING, lookupRatingOfOrder, tierFromOrder, List.enum,
      List.enumFrom, List.find?, Option.map, Option.getD]
    norm_num

theorem enum_fst_inj {α : Type} {l : List α} {p q : ℕ × α}
    (hp : p ∈ l.enum) (hq : q ∈ l.enum) (h : p.1 = q.1) : p = q := by
  rw [List.mem_enum_iff_getElem?] at hp hq
  rw [h] at hp
  rw [hp] at hq
  exact Prod.ext h (Option.some.inj hq)

theorem mem_tierGroup_iff {rows : List Row} {t : Tier} {p : ℕ × Row} :
    p ∈ tierGroup rows t ↔ p ∈ rows.enum ∧ rating_to_tier p.2.rating_moodys = t := by
  unfold tierGroup
  rw [List.mem_filter]
  simp only [beq_iff_eq]

theorem snd_mem_of_mem_enum {α : Type} {l : List α} {p : ℕ × α} (hp : p ∈ l.enum) :
    p.2 ∈ l := by
  have : p.2 ∈ l.enum.map Prod.snd := List.mem_map_of_mem Prod.snd hp
  rwa [List.enum_map_snd] at this

theorem mem_tierKeys_of_mem_group {rows : List Row} {t : Tier} {p : ℕ × Row}
    (hp : p ∈ tierGroup rows t) : t ∈ tierKeys rows := by
  obtain ⟨hpe, hpt⟩ := mem_tierGroup_iff.mp hp
  unfold tierKeys
  rw [(List.perm_insertionSort _ _).mem_iff, List.mem_dedup]
  rw [← hpt]
  exact List.mem_map_of_mem _ (snd_mem_of_mem_enum hpe)

theorem migratedIdx_mem_iff {rows : List Row} {rate : ℚ} {t : Tier} {p : ℕ × Row}
    (hp : p ∈ tierGroup rows t) :
    (migratedIdx rows rate).contains p.1 = true
      ↔ p ∈ (sortRowsByParDesc (tierGroup rows t)).take
          (nMigrate (tierGroup rows t).length rate) := by
  rw [List.elem_iff]
  constructor
  · intro h
    unfold migratedIdx at h
    rw [List.mem_flatMap] at h
    obtain ⟨t', _, hmem⟩ := h
    rw [List.mem_map] at hmem
    obtain ⟨p', hp', hfst⟩ := hmem
    have hp'g : p' ∈ tierGroup rows t' :=
      (List.perm_insertionSort _ _).mem_iff.mp (List.mem_of_mem_take hp')
    have hpe := (mem_tierGroup_iff.mp hp).1
    have hp'e := (mem_tierGroup_iff.mp hp'g).1
    have heq : p' = p := enum_fst_inj hp'e hpe hfst
    subst heq
    have ht' : t' = t := by
      rw [← (mem_tierGroup_iff.mp hp'g).2, ← (mem_tierGroup_iff.mp hp).2]
    rwa [ht'] at hp'
  · intro h
    unfold migratedIdx
    rw [List.mem_flatMap]
    exact ⟨t, mem_tierKeys_of_mem_group hp, List.mem_map_of_mem (·.1) h⟩

theorem sum_map_eq_sum_filter_map {α : Type} (p : α → Bool) (f : α → ℚ) (l : List α)
    (h : ∀ x ∈ l, p x = false → f x = 0) :
    (l.map f).sum = ((l.filter p).map f).sum := by
  induction l with
  | nil => rfl
  | cons a l ih =>
    have ih' := ih (fun x hx => h x (List.mem_cons_of_mem _ hx))
    cases hpa : p a with
    | false =>
      simp [hpa, h a (List.mem_cons_self a l) hpa, ih']
    | true =>
      simp [hpa, ih']

/-- Claim C3 as amended: within each rating tier the migration scenario
deterministically selects the top `max(1, int(len * migration_rate))`
assets by par (so even `migration_rate = 0` migrates one asset per
non-empty tier); the scenario loss is the sum over migrated assets only
of `par * max(0, new-tier haircut - old-tier haircut) / 100`;
non-migrated assets contribute zero; each migrated asset's stressed tier
is the tier of its rating downgraded one notch; and every migrated
asset's par is at least that of every non-migrated asset of its tier. -/
theorem scenario_downgrade_migration_spec (rows : List Row) (cfg : StressConfig) :
    (scenario_downgrade_migration rows cfg).loss_dollars
      = (((migrationWork rows cfg).filter (·.migrated)).map (fun w =>
          w.row.par_amount
            * max 0 (tierHaircut cfg w.stressed_tier
                - tierHaircut cfg (rating_to_tier w.row.rating_moodys)) / 100)).sum
    ∧ (∀ w ∈ migrationWork rows cfg, w.migrated = false → migrationRowLoss cfg w = 0)
    ∧ (∀ w ∈ migrationWork rows cfg, w.migrated = true →
        w.stressed_tier = rating_to_tier (w.row.rating_moodys.map downgrade_one_notch))
    ∧ (∀ t : Tier, ∀ p ∈ tierGroup rows t,
        ((migratedIdx rows cfg.migration_rate).contains p.1 = true
          ↔ p ∈ (sortRowsByParDesc (tierGroup rows t)).take
              (nMigrate (tierGroup rows t).length cfg.migration_rate)))
    ∧ (∀ t : Tier, ∀ p ∈ tierGroup rows t, ∀ q ∈ tierGroup rows t,
        (migratedIdx rows cfg.migration_rate).contains p.1 = true →
        (migratedIdx rows cfg.migration_rate).contains q.1 = false →
        q.2.par_amount ≤ p.2.par_amount) := by
  have hzero : ∀ w ∈ migrationWork rows cfg, w.migrated = false →
      migrationRowLoss cfg w = 0 := by
    intro w _ hw
    unfold migrationRowLoss
    simp [hw]
  refine ⟨?_, hzero, ?_, fun t p hp => migratedIdx_mem_iff hp, ?_⟩
  · show ((migrationWork rows cfg).map (migrationRowLoss cfg)).sum = _
    rw [sum_map_eq_sum_filter_map (·.migrated) _ _ hzero]
    apply congrArg
    apply List.map_congr_left
    intro w hw
    have hmig : w.migrated = true := List.of_mem_filter hw
    unfold migrationRowLoss
    simp [hmig]
  · intro w hw hmig
    unfold migrationWork at hw
    rw [List.mem_map] at hw
    obtain ⟨pr, _, rfl⟩ := hw
    simp only at hmig ⊢
    rw [if_pos hmig]
  · intro t p hp q hq hpc hqc
    haveI : IsTotal (ℕ × Row) (fun a b => b.2.par_amount ≤ a.2.par_amount) :=
      ⟨fun a b => le_total _ _⟩
    haveI : IsTrans (ℕ × Row) (fun a b => b.2.par_amount ≤ a.2.par_amount) :=
      ⟨fun _ _ _ hab hbc => le_trans hbc hab⟩
    set k := nMigrate (tierGroup rows t).length cfg.migration_rate with hk
    have hptake : p ∈ (sortRowsByParDesc (tierGroup rows t)).take k :=
      (migratedIdx_mem_iff hp).mp hpc
    have hqtake : q ∉ (sortRowsByParDesc (tierGroup rows t)).take k := by
      intro hqin
      rw [(migratedIdx_mem_iff hq).mpr hqin] at hqc
      exact absurd hqc (by simp)
    have hqs : q ∈ sortRowsByParDesc (tierGroup rows t) :=
      (List.perm_insertionSort _ _).mem_iff.mpr hq
    have hqdrop : q ∈ (sortRowsByParDesc (tierGroup rows t)).drop k := by
      rcases List.mem_append.mp (by
        rwa [List.take_append_drop k (sortRowsByParDesc (tierGroup rows t))]) with h | h
      · exact absurd h hqtake
      · exact h
    have hsorted : List.Pairwise (fun a b : ℕ × Row => b.2.par_amount ≤ a.2.par_amount)
        (sortRowsByParDesc (tierGroup rows t)) :=
      List.sorted_insertionSort _ _
    rw [← List.take_append_drop k (sortRowsByParDesc (tierGroup rows t))] at hsorted
    exact (List.pairwise_append.mp hsorted).2.2 p hptake q hqdrop

theorem scenario_downgrade_migration_spec_witness :
    (migratedIdx oneB3Frame.rows (StressConfig.migration_rate {})).contains
        (0, sampleRow).1 = true
      ↔ (0, sampleRow) ∈ (sortRowsByParDesc (tierGroup oneB3Frame.rows Tier.B)).take
          (nMigrate (tierGroup oneB3Frame.rows Tier.B).length
            (StressConfig.migration_rate {})) :=
  (scenario_downgrade_migration_spec oneB3Frame.rows {}).2.2.2.1 Tier.B (0, sampleRow)
    (by decide)
